import Mathlib

/-!
Verification development for the direct-csi installer module
(`pkg/installer/install.go`).

The Go source is shallowly embedded: every resource descriptor becomes a
Lean structure mirroring exactly the fields the source sets, each installer
operation becomes a pure function that threads an explicit `World`
(cluster contents plus the two process-wide CA-bundle variables) and
records an ordered trace of events (objects serialized to the writer sink,
and API calls issued to the orchestration control plane).

External collaborators that live outside the provided source file
(name sanitizer, version negotiator, certificate authority, random-string
generator, YAML writer) are modelled from the specification; each such
definition carries a doc comment saying so.
-/

/-- Byte strings (`[]byte` in the source) are modelled as lists of bytes. -/
abbrev Bytes := List Nat

/- ===== Named constants =====
The constants below are declared elsewhere in the repository (outside the
provided source file); their exact values are immaterial to every claim,
except that distinct constants name distinct resources. -/

/-- Modelled from the spec: fixed created-by annotation key. -/
def CreatedByLabel : String := "created-by"

/-- Modelled from the spec: plugin name used as the created-by annotation value. -/
def DirectCSIPluginName : String := "kubectl-direct-csi"

/-- Modelled from the spec: fixed application label value. -/
def DirectCSI : String := "direct-csi"

/-- Modelled from the spec: fixed application type label value. -/
def CSIDriver : String := "CSIDriver"

/-- Modelled from the spec: conversion webhook port name constant. -/
def conversionWebhookPortName : String := "conversion-webhook"

/-- Modelled from the spec: conversion webhook port number constant. -/
def ConversionWebhookPort : Int := 30443

/-- Modelled from the spec: webhook selector label key. -/
def webhookSelector : String := "direct-csi-webhook"

/-- Modelled from the spec: webhook selector enabled value. -/
def selectorValueEnabled : String := "enabled"

/-- Modelled from the spec: workload selector label key. -/
def directCSISelector : String := "selector.direct-csi-min-io"

/-- Modelled from the spec: kubelet directory host path. -/
def kubeletDirPath : String := "/var/lib/kubelet"

/-- Modelled from the spec: csi root directory host path. -/
def csiRootPath : String := "/var/lib/direct-csi"

/-- Modelled from the spec: conversion CA cert secret/volume name. -/
def conversionCACert : String := "conversioncacert"

/-- Modelled from the spec: conversion key pair secret/volume name. -/
def conversionKeyPair : String := "conversionkeypair"

/-- Modelled from the spec: conversion CA mount directory. -/
def conversionCADir : String := "/etc/conversion/CAs"

/-- Modelled from the spec: conversion certs mount directory. -/
def conversionCertsDir : String := "/etc/conversion/certs"

/-- Modelled from the spec: socket-dir volume name. -/
def volumeNameSocketDir : String := "socket-dir"

/-- Modelled from the spec: socket-dir mount path. -/
def volumePathSocketDir : String := "/csi"

/-- Modelled from the spec: mountpoint-dir volume name. -/
def volumeNameMountpointDir : String := "mountpoint-dir"

/-- Modelled from the spec: registration-dir volume name. -/
def volumeNameRegistrationDir : String := "registration-dir"

/-- Modelled from the spec: plugins-dir volume name. -/
def volumeNamePluginDir : String := "plugins-dir"

/-- Modelled from the spec: csi common root volume name. -/
def volumeNameCSIRootDir : String := "direct-csi-common-root"

/-- Modelled from the spec: sysfs volume name. -/
def volumeNameSysDir : String := "sysfs"

/-- Modelled from the spec: sysfs host path. -/
def volumePathSysDir : String := "/sys"

/-- Modelled from the spec: devfs volume name. -/
def volumeNameDevDir : String := "devfs"

/-- Modelled from the spec: devfs host path. -/
def volumePathDevDir : String := "/dev"

/-- Modelled from the spec: udev data volume name. -/
def volumeNameRunUdevData : String := "run-udev-data-dir"

/-- Modelled from the spec: udev data host path. -/
def volumePathRunUdevData : String := "/run/udev/data"

/-- Modelled from the spec: log verbosity level constant. -/
def logLevel : Nat := 3

/-- Modelled from the spec: node driver registrar container name. -/
def nodeDriverRegistrarContainerName : String := "node-driver-registrar"

/-- Modelled from the spec: direct-csi container name. -/
def directCSIContainerName : String := "direct-csi"

/-- Modelled from the spec: liveness probe container name. -/
def livenessProbeContainerName : String := "liveness-probe"

/-- Modelled from the spec: csi provisioner container name. -/
def csiProvisionerContainerName : String := "csi-provisioner"

/-- Modelled from the spec: node driver registrar image name. -/
def CSIImageNodeDriverRegistrar : String := "csi-node-driver-registrar:v2.1.0"

/-- Modelled from the spec: liveness probe image name. -/
def CSIImageLivenessProbe : String := "livenessprobe:v2.1.0"

/-- Modelled from the spec: csi provisioner image name. -/
def CSIImageCSIProvisioner : String := "csi-provisioner:v2.2.0"

/-- Modelled from the spec: node name environment variable name. -/
def kubeNodeNameEnvVar : String := "KUBE_NODE_NAME"

/-- Modelled from the spec: csi endpoint environment variable name. -/
def endpointEnvVarCSI : String := "CSI_ENDPOINT"

/-- Modelled from the spec: healthz container port name. -/
def healthZContainerPortName : String := "healthz"

/-- Modelled from the spec: healthz container port path. -/
def healthZContainerPortPath : String := "/healthz"

/-- Modelled from the spec: admission controller webhook port number. -/
def admissionControllerWebhookPort : Int := 443

/-- Modelled from the spec: admission controller webhook port name. -/
def admissionControllerWebhookName : String := "admission-controller-webhook"

/-- Modelled from the spec: validation controller service name. -/
def validationControllerName : String := "directcsi-validation-controller"

/-- Modelled from the spec: admission webhook secret name. -/
def admissionWebhookSecretName : String := "validationwebhookcerts"

/-- Modelled from the spec: private key file name inside TLS secrets. -/
def privateKeyFileName : String := "key.pem"

/-- Modelled from the spec: public cert file name inside TLS secrets. -/
def publicCertFileName : String := "cert.pem"

/-- Modelled from the spec: CA cert file name inside the conversion CA secret. -/
def caCertFileName : String := "ca.pem"

/-- Modelled from the spec: validating webhook configuration name. -/
def validationWebhookConfigName : String := "drive.validation.controller"

/-- Modelled from the spec: delete-protection finalizer suffix. -/
def directCSIFinalizerDeleteProtection : String := "/delete-protection"

/-- Modelled from the spec: admission webhook DNS name constant. -/
def admissionWehookDNSName : String := "validationwebhook.direct-csi"

/-- Modelled from the spec: admission controller certs volume name. -/
def admissionControllerCertsDir : String := "admission-webhook-certs"

/-- Modelled from the spec: admission certs mount directory. -/
def admissionCertsDir : String := "/etc/admission/certs"

/-- Modelled from the spec: topology identity label key. -/
def TopologyDriverIdentity : String := "direct-csi-min-io/identity"

/- ===== External collaborator models ===== -/

/-- Modelled from the spec: one character step of the name sanitizer
collaborator; keeps lowercase letters and digits, lowercases uppercase
letters, and replaces every other character with a hyphen, so the output
consists only of legal resource-name characters. -/
def sanitizeChar (c : Char) : Char :=
  if c.isLower || c.isDigit then c
  else if c.isUpper then c.toLower
  else '-'

/-- Modelled from the spec: the name sanitizer collaborator
(`utils.SanitizeKubeResourceName`, declared outside the provided source)
maps an arbitrary identity string to a legal resource-name character set.
It rewrites characters and does not truncate: the source of
`generateSanitizedUniqueNameFrom` itself guards against sanitized names of
length 255 and more, so the sanitizer's output length is the input length. -/
def SanitizeKubeResourceName (s : String) : String :=
  String.mk (s.data.map sanitizeChar)

/-- Modelled from the spec (Go standard library `filepath.Join` on
slash-free components): joins the non-empty components with slashes. -/
def filepathJoin (parts : List String) : String :=
  String.intercalate "/" (parts.filter (fun p => !p.isEmpty))

/-- Concatenation of a name and a random suffix with a hyphen in between
(`fmt.Sprintf("%s-%s", sanitizedName, shortUUID)` in the source). -/
def hyphenConcat (a b : String) : String :=
  a ++ "-" ++ b

/-- Transliteration of `generateSanitizedUniqueNameFrom`: sanitizes the
name, truncates it to 249 bytes when its length is 255 or more, and
appends a hyphen and the 5-byte random string.  The random string produced
by `newRandomString(5)` (declared outside the provided source) is passed
explicitly as `shortUUID`. -/
def generateSanitizedUniqueNameFrom (shortUUID : String) (name : String) : String :=
  let sanitizedName := SanitizeKubeResourceName name
  let sanitizedName :=
    if 255 ≤ sanitizedName.data.length then String.mk (sanitizedName.data.take 249)
    else sanitizedName
  hyphenConcat sanitizedName shortUUID

/- ===== Resource descriptor structures =====
Each structure mirrors exactly the fields the Go source sets on the
corresponding Kubernetes typed object; fields the source never touches are
omitted (their Go zero values carry no information for any claim). -/

/-- Integer-or-string value (`intstr.IntOrString`). -/
inductive IntOrString where
  | int (i : Int)
  | str (s : String)
  deriving DecidableEq, Repr

/-- Object metadata (`metav1.ObjectMeta`) restricted to the fields set by
the source: name, namespace, annotations, labels, finalizers. -/
structure ObjectMeta where
  name : String
  nspace : String
  annotations : List (String × String)
  labels : List (String × String)
  finalizers : List String
  deriving DecidableEq, Repr

/-- Transliteration of `objMeta`: shared metadata with sanitized name and
namespace, the created-by annotation and the fixed app/type label pair. -/
def objMeta (name : String) : ObjectMeta :=
  { name := SanitizeKubeResourceName name
    nspace := SanitizeKubeResourceName name
    annotations := [(CreatedByLabel, DirectCSIPluginName)]
    labels := [("app", DirectCSI), ("type", CSIDriver)]
    finalizers := [] }

/-- Namespace descriptor (`corev1.Namespace` as built by `CreateNamespace`). -/
structure NamespaceDesc where
  kind : String
  apiVersion : String
  metadata : ObjectMeta
  specFinalizers : List String
  deriving DecidableEq, Repr

/-- CSI driver descriptor; the `storagev1` and `storagev1beta1` variants
set the same fields and are distinguished by `apiVersion`. -/
structure CSIDriverDesc where
  kind : String
  apiVersion : String
  metadata : ObjectMeta
  podInfoOnMount : Bool
  attachRequired : Bool
  volumeLifecycleModes : List String
  deriving DecidableEq, Repr

/-- A topology selector label requirement (key and admissible values). -/
structure TopologySelectorLabelRequirement where
  key : String
  values : List String
  deriving DecidableEq, Repr

/-- A topology selector term. -/
structure TopologySelectorTerm where
  matchLabelExpressions : List TopologySelectorLabelRequirement
  deriving DecidableEq, Repr

/-- Transliteration of `getTopologySelectorTerm`. -/
def getTopologySelectorTerm (identity : String) : TopologySelectorTerm :=
  { matchLabelExpressions :=
      [{ key := TopologyDriverIdentity
         values := [SanitizeKubeResourceName identity] }] }

/-- Storage class descriptor; the `storagev1` and `storagev1beta1`
variants set the same fields and are distinguished by `apiVersion`. -/
structure StorageClassDesc where
  kind : String
  apiVersion : String
  metadata : ObjectMeta
  provisioner : String
  allowVolumeExpansion : Bool
  volumeBindingMode : String
  allowedTopologies : List TopologySelectorTerm
  reclaimPolicy : String
  parameters : List (String × String)
  deriving DecidableEq, Repr

/-- Service port (`corev1.ServicePort` fields the source sets). -/
structure ServicePort where
  name : String
  port : Int
  targetPort : IntOrString
  deriving DecidableEq, Repr

/-- Service descriptor. -/
structure ServiceDesc where
  kind : String
  apiVersion : String
  metadata : ObjectMeta
  ports : List ServicePort
  selector : List (String × String)
  deriving DecidableEq, Repr

/-- Field reference inside an environment variable source. -/
structure ObjectFieldSelector where
  apiVersion : String
  fieldPath : String
  deriving DecidableEq, Repr

/-- Environment variable source (only the field-ref form is used). -/
structure EnvVarSource where
  fieldRef : Option ObjectFieldSelector
  deriving DecidableEq, Repr

/-- Environment variable. -/
structure EnvVar where
  name : String
  value : String
  valueFrom : Option EnvVarSource
  deriving DecidableEq, Repr

/-- Volume mount. -/
structure VolumeMount where
  name : String
  readOnly : Bool
  mountPath : String
  mountPropagation : Option String
  deriving DecidableEq, Repr

/-- Host path volume source. -/
structure HostPathVolumeSource where
  path : String
  hostPathType : String
  deriving DecidableEq, Repr

/-- Secret volume source. -/
structure SecretVolumeSource where
  secretName : String
  deriving DecidableEq, Repr

/-- Volume source (only the host-path and secret forms are used). -/
structure VolumeSource where
  hostPath : Option HostPathVolumeSource
  secret : Option SecretVolumeSource
  deriving DecidableEq, Repr

/-- Volume. -/
structure Volume where
  name : String
  volumeSource : VolumeSource
  deriving DecidableEq, Repr

/-- Seccomp profile reference. -/
structure SeccompProfile where
  profileType : String
  localhostProfile : Option String
  deriving DecidableEq, Repr

/-- Container security context (fields the source sets). -/
structure SecurityContext where
  privileged : Bool
  seccompProfile : Option SeccompProfile
  deriving DecidableEq, Repr

/-- Container port. -/
structure ContainerPort where
  containerPort : Int
  name : String
  protocol : String
  deriving DecidableEq, Repr

/-- HTTP get action of a probe handler. -/
structure HTTPGetAction where
  path : String
  port : IntOrString
  scheme : String
  deriving DecidableEq, Repr

/-- Probe handler (`corev1.Handler`; only the HTTP-get form is used). -/
structure Handler where
  httpGet : Option HTTPGetAction
  deriving DecidableEq, Repr

/-- Probe. -/
structure Probe where
  failureThreshold : Int
  initialDelaySeconds : Int
  timeoutSeconds : Int
  periodSeconds : Int
  handler : Handler
  deriving DecidableEq, Repr

/-- Container (fields the source sets). -/
structure Container where
  name : String
  image : String
  args : List String
  env : List EnvVar
  volumeMounts : List VolumeMount
  securityContext : Option SecurityContext
  ports : List ContainerPort
  readinessProbe : Option Probe
  livenessProbe : Option Probe
  terminationMessagePolicy : String
  terminationMessagePath : String
  deriving DecidableEq, Repr

/-- Toleration, passed through verbatim from the caller. -/
structure Toleration where
  key : String
  operator : String
  value : String
  effect : String
  tolerationSeconds : Option Int
  deriving DecidableEq, Repr

/-- Pod spec (fields the source sets). -/
structure PodSpec where
  serviceAccountName : String
  hostIPC : Bool
  hostPID : Bool
  hostNetwork : Bool
  dnsPolicy : String
  volumes : List Volume
  containers : List Container
  nodeSelector : List (String × String)
  tolerations : List Toleration
  deriving DecidableEq, Repr

/-- Pod template spec. -/
structure PodTemplateSpec where
  metadata : ObjectMeta
  spec : PodSpec
  deriving DecidableEq, Repr

/-- Label selector (only match-labels are used). -/
structure LabelSelector where
  matchLabels : List (String × String)
  deriving DecidableEq, Repr

/-- Model of `metav1.AddLabelToSelector`: adds the pair to the selector's
match labels. -/
def AddLabelToSelector (s : LabelSelector) (k v : String) : LabelSelector :=
  { matchLabels := s.matchLabels ++ [(k, v)] }

/-- Daemon set descriptor. -/
structure DaemonSetDesc where
  kind : String
  apiVersion : String
  metadata : ObjectMeta
  selector : LabelSelector
  template : PodTemplateSpec
  deriving DecidableEq, Repr

/-- Deployment descriptor. -/
structure DeploymentDesc where
  kind : String
  apiVersion : String
  metadata : ObjectMeta
  replicas : Int
  selector : LabelSelector
  template : PodTemplateSpec
  deriving DecidableEq, Repr

/-- Secret descriptor. -/
structure SecretDesc where
  kind : String
  apiVersion : String
  metadata : ObjectMeta
  data : List (String × Bytes)
  deriving DecidableEq, Repr

/-- Service reference inside a webhook client config. -/
structure ServiceReference where
  nspace : String
  name : String
  path : Option String
  deriving DecidableEq, Repr

/-- Webhook client config. -/
structure WebhookClientConfig where
  service : Option ServiceReference
  caBundle : Bytes
  deriving DecidableEq, Repr

/-- Admission rule with operations. -/
structure RuleWithOperations where
  operations : List String
  apiGroups : List String
  apiVersions : List String
  resources : List String
  deriving DecidableEq, Repr

/-- A validating webhook entry. -/
structure ValidatingWebhook where
  name : String
  clientConfig : WebhookClientConfig
  admissionReviewVersions : List String
  sideEffects : String
  rules : List RuleWithOperations
  deriving DecidableEq, Repr

/-- Validating webhook configuration descriptor. -/
structure ValidatingWebhookConfigurationDesc where
  kind : String
  apiVersion : String
  metadata : ObjectMeta
  webhooks : List ValidatingWebhook
  deriving DecidableEq, Repr

/- ===== Orchestration API model ===== -/

/-- Errors returned by the orchestration API. -/
inductive ApiErr where
  | alreadyExists
  | notFound
  | otherErr (msg : String)
  deriving DecidableEq, Repr

/-- Errors an installer operation can return: the unsupported-version
error, the empty-CA-bundle error, a certificate collaborator error, or an
orchestration API error propagated unchanged. -/
inductive Err where
  | kubeVersionNotSupported
  | emptyCABundle
  | certFailure (msg : String)
  | api (e : ApiErr)
  deriving DecidableEq, Repr

/-- Model of `kerr.IsNotFound`: holds exactly on a propagated NotFound
API error. -/
def Err.isNotFound : Err → Bool
  | .api .notFound => true
  | _ => false

/-- Model of `kerr.IsAlreadyExists`: holds exactly on a propagated
AlreadyExists API error. -/
def Err.isAlreadyExists : Err → Bool
  | .api .alreadyExists => true
  | _ => false

/-- The verb of an orchestration API call. -/
inductive ApiOp where
  | createOp
  | getOp
  | updateOp
  deriving DecidableEq, Repr

/-- One orchestration API call: verb, resource kind, namespace, name. -/
structure ApiCall where
  op : ApiOp
  kind : String
  nspace : String
  name : String
  deriving DecidableEq, Repr

/-- The typed objects an operation can serialize to the writer sink. -/
inductive K8sObject where
  | namespaceObj (o : NamespaceDesc)
  | csiDriverObj (o : CSIDriverDesc)
  | storageClassObj (o : StorageClassDesc)
  | serviceObj (o : ServiceDesc)
  | daemonSetObj (o : DaemonSetDesc)
  | deploymentObj (o : DeploymentDesc)
  | secretObj (o : SecretDesc)
  | webhookConfigObj (o : ValidatingWebhookConfigurationDesc)
  deriving DecidableEq, Repr

/-- An observable event of an operation, in program order: an object
serialized to the writer sink, or an API call issued. -/
inductive Event where
  | wrote (obj : K8sObject)
  | api (c : ApiCall)
  deriving DecidableEq, Repr

/-- Whether an event is an API call. -/
def Event.isApiEvent : Event → Bool
  | .api _ => true
  | .wrote _ => false

/-- The API calls of a trace, in order. -/
def apiCallsOf (es : List Event) : List ApiCall :=
  es.filterMap (fun e => match e with | .api c => some c | .wrote _ => none)

/-- The objects written to the writer sink, in order. -/
def writtenObjsOf (es : List Event) : List K8sObject :=
  es.filterMap (fun e => match e with | .wrote o => some o | .api _ => none)

/-- The prefix of a trace before its first API call. -/
def beforeFirstApi (es : List Event) : List Event :=
  es.takeWhile (fun e => !e.isApiEvent)

/-- Cluster contents: which resources exist, keyed the way the create
calls key them; secrets carry their data payload; `brokenSecrets` marks
secret keys whose fetch fails with an error that is neither NotFound nor
AlreadyExists (modelling an arbitrary transport failure). -/
structure Cluster where
  namespaces : List String
  csiDrivers : List String
  storageClasses : List String
  services : List (String × String)
  daemonSets : List (String × String)
  deployments : List (String × String)
  validatingWebhookConfigs : List String
  secrets : List ((String × String) × List (String × Bytes))
  brokenSecrets : List (String × String)
  deriving DecidableEq, Repr

/-- The world an operation runs in: the cluster plus the two process-wide
CA-bundle variables (`validationWebhookCaBundle`,
`conversionWebhookCaBundle` in the source). -/
structure World where
  cluster : Cluster
  validationWebhookCaBundle : Bytes
  conversionWebhookCaBundle : Bytes
  deriving DecidableEq, Repr

/-- Create semantics for resources keyed by a bare name: AlreadyExists
when present, otherwise the resource is recorded. -/
def createNamed (l : List String) (name : String) : Except ApiErr (List String) :=
  if l.contains name then .error .alreadyExists else .ok (l ++ [name])

/-- Create semantics for resources keyed by namespace and name. -/
def createKeyed (l : List (String × String)) (key : String × String) :
    Except ApiErr (List (String × String)) :=
  if l.contains key then .error .alreadyExists else .ok (l ++ [key])

/-- Get semantics for secrets: a broken key fails with a transport error,
a present key returns its data, an absent key fails with NotFound. -/
def getSecretData (c : Cluster) (key : String × String) :
    Except ApiErr (List (String × Bytes)) :=
  if c.brokenSecrets.contains key then .error (.otherErr "internal error")
  else
    match c.secrets.lookup key with
    | some d => .ok d
    | none => .error .notFound

/-- Create semantics for secrets: AlreadyExists when the key is present,
otherwise the secret is stored with its data. -/
def createSecretData (c : Cluster) (key : String × String)
    (d : List (String × Bytes)) : Except ApiErr Cluster :=
  if (c.secrets.lookup key).isSome then .error .alreadyExists
  else .ok { c with secrets := c.secrets ++ [(key, d)] }

/-- Update semantics for secrets: replaces the data of a present key,
fails with NotFound on an absent key. -/
def updateSecretData (c : Cluster) (key : String × String)
    (d : List (String × Bytes)) : Except ApiErr Cluster :=
  if (c.secrets.lookup key).isSome then
    .ok { c with secrets := c.secrets.map (fun kv => if kv.1 = key then (key, d) else kv) }
  else .error .notFound

/-- The environment supplied by external collaborators: the schema
versions the cluster advertises for the storage group (consumed by the
version negotiator), the certificate authority collaborator, and the next
random string the generator will produce. -/
structure Env where
  offeredStorageVersions : List String
  getCerts : List String → Except String (Bytes × Bytes × Bytes)
  shortUUID : String

/-- Modelled from the spec: the version negotiator
(`utils.GetGroupKindVersions`, declared outside the provided source)
returns the highest-preference candidate version the cluster actually
offers and fails with the unsupported-version error when none of the
candidates are offered. -/
def GetGroupKindVersions (offered : List String) (candidates : List String) :
    Except Err String :=
  match candidates.find? (fun c => offered.contains c) with
  | some v => .ok v
  | none => .error .kubeVersionNotSupported

/-- Modelled from the spec: `utils.WriteObject` serializes the object to
the writer sink when one is supplied and is a no-op otherwise; in this
model serialization never fails. -/
def WriteObject (hasWriter : Bool) (obj : K8sObject) : List Event :=
  if hasWriter then [.wrote obj] else []

/-- The outcome of running an installer operation: its returned value or
error, the world after the run, and the ordered event trace. -/
structure OpResult (α : Type) where
  result : Except Err α
  world : World
  events : List Event
  deriving Repr

/- ===== Helper builders ===== -/

/-- Transliteration of `getConversionWebhookDNSName`. -/
def getConversionWebhookDNSName (identity : String) : String :=
  String.intercalate "."
    [SanitizeKubeResourceName identity, SanitizeKubeResourceName identity, "svc"]

/-- Transliteration of `getConversionHealthzHandler`. -/
def getConversionHealthzHandler : Handler :=
  { httpGet := some
      { path := healthZContainerPortPath
        port := .str conversionWebhookPortName
        scheme := "HTTPS" } }

/-- Transliteration of `getConversionHealthzURL`. -/
def getConversionHealthzURL (identity : String) : String :=
  "https://" ++ getConversionWebhookDNSName identity ++ ":"
    ++ toString ConversionWebhookPort ++ healthZContainerPortPath

/-- Transliteration of `newHostPathVolume`. -/
def newHostPathVolume (name path : String) : Volume :=
  { name := name
    volumeSource :=
      { hostPath := some { path := path, hostPathType := "DirectoryOrCreate" }
        secret := none } }

/-- Transliteration of `newSecretVolume`. -/
def newSecretVolume (name secretName : String) : Volume :=
  { name := name
    volumeSource := { hostPath := none, secret := some { secretName := secretName } } }

/-- Transliteration of `newDirectCSIPluginsSocketDir`. -/
def newDirectCSIPluginsSocketDir (kubeletDir name : String) : String :=
  filepathJoin [kubeletDir, "plugins", SanitizeKubeResourceName name]

/-- Transliteration of `newVolumeMount`. -/
def newVolumeMount (name path : String) (bidirectional readOnly : Bool) : VolumeMount :=
  { name := name
    readOnly := readOnly
    mountPath := path
    mountPropagation := some (if bidirectional then "Bidirectional" else "None") }

/- ===== Installer operations ===== -/

/-- Transliteration of `CreateNamespace`. -/
def CreateNamespace (identity : String) (dryRun hasWriter : Bool) (w : World) :
    OpResult Unit :=
  let ns : NamespaceDesc :=
    { kind := "Namespace"
      apiVersion := "v1"
      metadata := objMeta identity
      specFinalizers := [] }
  let wr := WriteObject hasWriter (.namespaceObj ns)
  if dryRun then
    { result := .ok (), world := w, events := wr }
  else
    let call : ApiCall :=
      { op := .createOp, kind := "Namespace", nspace := "", name := ns.metadata.name }
    match createNamed w.cluster.namespaces ns.metadata.name with
    | .ok l =>
      { result := .ok ()
        world := { w with cluster := { w.cluster with namespaces := l } }
        events := wr ++ [.api call] }
    | .error e =>
      { result := .error (.api e), world := w, events := wr ++ [.api call] }

/-- The CSI driver descriptor of `CreateCSIDriver`'s `v1` branch. -/
def buildCSIDriverV1 (identity : String) : CSIDriverDesc :=
  { kind := "CSIDriver"
    apiVersion := "storage.k8s.io/v1"
    metadata := objMeta identity
    podInfoOnMount := true
    attachRequired := false
    volumeLifecycleModes := ["Persistent", "Ephemeral"] }

/-- The CSI driver descriptor of `CreateCSIDriver`'s `v1beta1` branch. -/
def buildCSIDriverV1Beta1 (identity : String) : CSIDriverDesc :=
  { kind := "CSIDriver"
    apiVersion := "storage.k8s.io/v1beta1"
    metadata := objMeta identity
    podInfoOnMount := true
    attachRequired := false
    volumeLifecycleModes := ["Persistent", "Ephemeral"] }

/-- Transliteration of `CreateCSIDriver`.  Note: the source's `v1beta1`
branch does not call `utils.WriteObject` (unlike the `v1` branch), and the
`default` branch returns the unsupported-version error. -/
def CreateCSIDriver (env : Env) (identity : String) (dryRun hasWriter : Bool)
    (w : World) : OpResult Unit :=
  match GetGroupKindVersions env.offeredStorageVersions ["v1", "v1beta1", "v1alpha1"] with
  | .error e => { result := .error e, world := w, events := [] }
  | .ok version =>
    match version with
    | "v1" =>
      let csiDriver := buildCSIDriverV1 identity
      let wr := WriteObject hasWriter (.csiDriverObj csiDriver)
      if dryRun then
        { result := .ok (), world := w, events := wr }
      else
        let call : ApiCall :=
          { op := .createOp, kind := "CSIDriver", nspace := "", name := csiDriver.metadata.name }
        match createNamed w.cluster.csiDrivers csiDriver.metadata.name with
        | .ok l =>
          { result := .ok ()
            world := { w with cluster := { w.cluster with csiDrivers := l } }
            events := wr ++ [.api call] }
        | .error e =>
          { result := .error (.api e), world := w, events := wr ++ [.api call] }
    | "v1beta1" =>
      let csiDriver := buildCSIDriverV1Beta1 identity
      if dryRun then
        { result := .ok (), world := w, events := [] }
      else
        let call : ApiCall :=
          { op := .createOp, kind := "CSIDriver", nspace := "", name := csiDriver.metadata.name }
        match createNamed w.cluster.csiDrivers csiDriver.metadata.name with
        | .ok l =>
          { result := .ok ()
            world := { w with cluster := { w.cluster with csiDrivers := l } }
            events := [.api call] }
        | .error e =>
          { result := .error (.api e), world := w, events := [.api call] }
    | _ => { result := .error .kubeVersionNotSupported, world := w, events := [] }

/-- The storage class descriptor of `CreateStorageClass`; the `v1` and
`v1beta1` branches build identical fields apart from the api version. -/
def buildStorageClass (apiVersion identity : String) : StorageClassDesc :=
  { kind := "StorageClass"
    apiVersion := apiVersion
    metadata := objMeta identity
    provisioner := SanitizeKubeResourceName identity
    allowVolumeExpansion := false
    volumeBindingMode := "WaitForFirstConsumer"
    allowedTopologies := [getTopologySelectorTerm identity]
    reclaimPolicy := "Delete"
    parameters := [("fstype", "xfs")] }

/-- Transliteration of `CreateStorageClass`. -/
def CreateStorageClass (env : Env) (identity : String) (dryRun hasWriter : Bool)
    (w : World) : OpResult Unit :=
  match GetGroupKindVersions env.offeredStorageVersions ["v1", "v1beta1", "v1alpha1"] with
  | .error e => { result := .error e, world := w, events := [] }
  | .ok version =>
    match version with
    | "v1" =>
      let storageClass := buildStorageClass "storage.k8s.io/v1" identity
      let wr := WriteObject hasWriter (.storageClassObj storageClass)
      if dryRun then
        { result := .ok (), world := w, events := wr }
      else
        let call : ApiCall :=
          { op := .createOp, kind := "StorageClass", nspace := "", name := storageClass.metadata.name }
        match createNamed w.cluster.storageClasses storageClass.metadata.name with
        | .ok l =>
          { result := .ok ()
            world := { w with cluster := { w.cluster with storageClasses := l } }
            events := wr ++ [.api call] }
        | .error e =>
          { result := .error (.api e), world := w, events := wr ++ [.api call] }
    | "v1beta1" =>
      let storageClass := buildStorageClass "storage.k8s.io/v1beta1" identity
      let wr := WriteObject hasWriter (.storageClassObj storageClass)
      if dryRun then
        { result := .ok (), world := w, events := wr }
      else
        let call : ApiCall :=
          { op := .createOp, kind := "StorageClass", nspace := "", name := storageClass.metadata.name }
        match createNamed w.cluster.storageClasses storageClass.metadata.name with
        | .ok l =>
          { result := .ok ()
            world := { w with cluster := { w.cluster with storageClasses := l } }
            events := wr ++ [.api call] }
        | .error e =>
          { result := .error (.api e), world := w, events := wr ++ [.api call] }
    | _ => { result := .error .kubeVersionNotSupported, world := w, events := [] }

/-- Transliteration of `CreateService`. -/
def CreateService (identity : String) (dryRun hasWriter : Bool) (w : World) :
    OpResult Unit :=
  let csiPort : ServicePort := { name := "unused", port := 12345, targetPort := .int 0 }
  let webhookPort : ServicePort :=
    { name := conversionWebhookPortName
      port := ConversionWebhookPort
      targetPort := .str conversionWebhookPortName }
  let svc : ServiceDesc :=
    { kind := "Service"
      apiVersion := "v1"
      metadata := objMeta identity
      ports := [csiPort, webhookPort]
      selector := [(webhookSelector, selectorValueEnabled)] }
  let wr := WriteObject hasWriter (.serviceObj svc)
  if dryRun then
    { result := .ok (), world := w, events := wr }
  else
    let key := (SanitizeKubeResourceName identity, svc.metadata.name)
    let call : ApiCall :=
      { op := .createOp, kind := "Service", nspace := key.1, name := key.2 }
    match createKeyed w.cluster.services key with
    | .ok l =>
      { result := .ok ()
        world := { w with cluster := { w.cluster with services := l } }
        events := wr ++ [.api call] }
    | .error e =>
      { result := .error (.api e), world := w, events := wr ++ [.api call] }

/-- The daemon set descriptor built by `CreateDaemonSet`, with the
generated selector value (computed from `newRandomString(5)` in the
source) passed explicitly. -/
def buildDaemonSet (identity directCSIContainerImage registry org : String)
    (loopBackOnly : Bool) (nodeSelector : List (String × String))
    (tolerations : List Toleration)
    (seccompProfileName apparmorProfileName : String)
    (enableDynamicDiscovery : Bool)
    (generatedSelectorValue : String) : DaemonSetDesc :=
  let name := SanitizeKubeResourceName identity
  let conversionHealthzURL := getConversionHealthzURL identity
  let securityContext : SecurityContext :=
    { privileged := true
      seccompProfile :=
        if seccompProfileName ≠ "" then
          some { profileType := "Localhost", localhostProfile := some seccompProfileName }
        else none }
  let volumes : List Volume :=
    [newHostPathVolume volumeNameSocketDir (newDirectCSIPluginsSocketDir kubeletDirPath name),
     newHostPathVolume volumeNameMountpointDir (kubeletDirPath ++ "/pods"),
     newHostPathVolume volumeNameRegistrationDir (kubeletDirPath ++ "/plugins_registry"),
     newHostPathVolume volumeNamePluginDir (kubeletDirPath ++ "/plugins"),
     newHostPathVolume volumeNameCSIRootDir csiRootPath,
     newSecretVolume conversionCACert conversionCACert,
     newSecretVolume conversionKeyPair conversionKeyPair]
  let volumeMounts : List VolumeMount :=
    [newVolumeMount volumeNameSocketDir "/csi" false false,
     newVolumeMount volumeNameMountpointDir (kubeletDirPath ++ "/pods") true false,
     newVolumeMount volumeNamePluginDir (kubeletDirPath ++ "/plugins") true false,
     newVolumeMount volumeNameCSIRootDir csiRootPath true false,
     newVolumeMount conversionCACert conversionCADir false false,
     newVolumeMount conversionKeyPair conversionCertsDir false false]
  let volumes := volumes ++ [newHostPathVolume volumeNameSysDir volumePathSysDir]
  let volumeMounts := volumeMounts ++ [newVolumeMount volumeNameSysDir volumePathSysDir true true]
  let volumes :=
    if enableDynamicDiscovery then
      volumes ++ [newHostPathVolume volumeNameDevDir volumePathDevDir,
                  newHostPathVolume volumeNameRunUdevData volumePathRunUdevData]
    else volumes
  let volumeMounts :=
    if enableDynamicDiscovery then
      volumeMounts ++ [newVolumeMount volumeNameDevDir volumePathDevDir true true,
                       newVolumeMount volumeNameRunUdevData volumePathRunUdevData true true]
    else volumeMounts
  let podSpec : PodSpec :=
    { serviceAccountName := name
      hostIPC := true
      hostPID := true
      hostNetwork := false
      dnsPolicy := ""
      volumes := volumes
      containers :=
        [{ name := nodeDriverRegistrarContainerName
           image := filepathJoin [registry, org, CSIImageNodeDriverRegistrar]
           args :=
             ["--v=" ++ toString logLevel,
              "--csi-address=unix:///csi/csi.sock",
              "--kubelet-registration-path="
                ++ newDirectCSIPluginsSocketDir kubeletDirPath name ++ "/csi.sock"]
           env :=
             [{ name := kubeNodeNameEnvVar
                value := ""
                valueFrom := some
                  { fieldRef := some { apiVersion := "v1", fieldPath := "spec.nodeName" } } }]
           volumeMounts :=
             [newVolumeMount volumeNameSocketDir volumePathSocketDir false false,
              newVolumeMount volumeNameRegistrationDir "/registration" false false]
           securityContext := none
           ports := []
           readinessProbe := none
           livenessProbe := none
           terminationMessagePolicy := "FallbackToLogsOnError"
           terminationMessagePath := "/var/log/driver-registrar-termination-log" },
         { name := directCSIContainerName
           image := filepathJoin [registry, org, directCSIContainerImage]
           args :=
             (["--identity=" ++ name,
               "-v=" ++ toString logLevel,
               "--endpoint=$(" ++ endpointEnvVarCSI ++ ")",
               "--node-id=$(" ++ kubeNodeNameEnvVar ++ ")",
               "--conversion-healthz-url=" ++ conversionHealthzURL,
               "--driver"]
              ++ (if loopBackOnly then ["--loopback-only"] else [])
              ++ (if enableDynamicDiscovery then ["--enable-dynamic-discovery"] else []))
           env :=
             [{ name := kubeNodeNameEnvVar
                value := ""
                valueFrom := some
                  { fieldRef := some { apiVersion := "v1", fieldPath := "spec.nodeName" } } },
              { name := endpointEnvVarCSI
                value := "unix:///csi/csi.sock"
                valueFrom := none }]
           volumeMounts := volumeMounts
           securityContext := some securityContext
           ports :=
             [{ containerPort := 9898, name := "healthz", protocol := "TCP" },
              { containerPort := ConversionWebhookPort
                name := conversionWebhookPortName
                protocol := "TCP" }]
           readinessProbe := some
             { failureThreshold := 0
               initialDelaySeconds := 0
               timeoutSeconds := 0
               periodSeconds := 0
               handler := getConversionHealthzHandler }
           livenessProbe := some
             { failureThreshold := 5
               initialDelaySeconds := 300
               timeoutSeconds := 5
               periodSeconds := 5
               handler :=
                 { httpGet := some
                     { path := healthZContainerPortPath
                       port := .str healthZContainerPortName
                       scheme := "" } } }
           terminationMessagePolicy := "FallbackToLogsOnError"
           terminationMessagePath := "/var/log/driver-termination-log" },
         { name := livenessProbeContainerName
           image := filepathJoin [registry, org, CSIImageLivenessProbe]
           args := ["--csi-address=/csi/csi.sock", "--health-port=9898"]
           env := []
           volumeMounts := [newVolumeMount volumeNameSocketDir volumePathSocketDir false false]
           securityContext := none
           ports := []
           readinessProbe := none
           livenessProbe := none
           terminationMessagePolicy := "FallbackToLogsOnError"
           terminationMessagePath := "/var/log/driver-liveness-termination-log" }]
      nodeSelector := nodeSelector
      tolerations := tolerations }
  let podSpec :=
    if enableDynamicDiscovery then
      { podSpec with hostNetwork := true, dnsPolicy := "ClusterFirstWithHostNet" }
    else podSpec
  let annos :=
    [(CreatedByLabel, DirectCSIPluginName)]
      ++ (if apparmorProfileName ≠ "" then
            [("container.apparmor.security.beta.kubernetes.io/direct-csi", apparmorProfileName)]
          else [])
  { kind := "DaemonSet"
    apiVersion := "apps/v1"
    metadata := objMeta identity
    selector := AddLabelToSelector { matchLabels := [] } directCSISelector generatedSelectorValue
    template :=
      { metadata :=
          { name := SanitizeKubeResourceName name
            nspace := SanitizeKubeResourceName name
            annotations := annos
            labels :=
              [(directCSISelector, generatedSelectorValue),
               (webhookSelector, selectorValueEnabled)]
            finalizers := [] }
        spec := podSpec } }

/-- Transliteration of `CreateDaemonSet`. -/
def CreateDaemonSet (env : Env) (identity directCSIContainerImage : String)
    (dryRun : Bool) (registry org : String) (loopBackOnly : Bool)
    (nodeSelector : List (String × String)) (tolerations : List Toleration)
    (seccompProfileName apparmorProfileName : String)
    (enableDynamicDiscovery : Bool) (hasWriter : Bool) (w : World) :
    OpResult Unit :=
  let name := SanitizeKubeResourceName identity
  let generatedSelectorValue := generateSanitizedUniqueNameFrom env.shortUUID name
  let daemonset :=
    buildDaemonSet identity directCSIContainerImage registry org loopBackOnly
      nodeSelector tolerations seccompProfileName apparmorProfileName
      enableDynamicDiscovery generatedSelectorValue
  let wr := WriteObject hasWriter (.daemonSetObj daemonset)
  if dryRun then
    { result := .ok (), world := w, events := wr }
  else
    let key := (SanitizeKubeResourceName identity, daemonset.metadata.name)
    let call : ApiCall :=
      { op := .createOp, kind := "DaemonSet", nspace := key.1, name := key.2 }
    match createKeyed w.cluster.daemonSets key with
    | .ok l =>
      { result := .ok ()
        world := { w with cluster := { w.cluster with daemonSets := l } }
        events := wr ++ [.api call] }
    | .error e =>
      { result := .error (.api e), world := w, events := wr ++ [.api call] }

/-- Transliteration of `CreateControllerService` (no writer parameter in
the source). -/
def CreateControllerService (generatedSelectorValue identity : String)
    (dryRun : Bool) (w : World) : OpResult Unit :=
  let admissionWebhookPort : ServicePort :=
    { name := ""
      port := admissionControllerWebhookPort
      targetPort := .str admissionControllerWebhookName }
  let svc : ServiceDesc :=
    { kind := "Service"
      apiVersion := "v1"
      metadata :=
        { name := validationControllerName
          nspace := SanitizeKubeResourceName identity
          annotations := []
          labels := []
          finalizers := [] }
      ports := [admissionWebhookPort]
      selector := [(directCSISelector, generatedSelectorValue)] }
  if dryRun then
    { result := .ok (), world := w, events := [] }
  else
    let key := (SanitizeKubeResourceName identity, svc.metadata.name)
    let call : ApiCall :=
      { op := .createOp, kind := "Service", nspace := key.1, name := key.2 }
    match createKeyed w.cluster.services key with
    | .ok l =>
      { result := .ok ()
        world := { w with cluster := { w.cluster with services := l } }
        events := [.api call] }
    | .error e =>
      { result := .error (.api e), world := w, events := [.api call] }

/-- Transliteration of `CreateControllerSecret` (no writer parameter in
the source). -/
def CreateControllerSecret (identity : String)
    (publicCertBytes privateKeyBytes : Bytes) (dryRun : Bool) (w : World) :
    OpResult Unit :=
  let secret : SecretDesc :=
    { kind := "Secret"
      apiVersion := "v1"
      metadata :=
        { name := admissionWebhookSecretName
          nspace := SanitizeKubeResourceName identity
          annotations := []
          labels := []
          finalizers := [] }
      data := [(privateKeyFileName, privateKeyBytes), (publicCertFileName, publicCertBytes)] }
  if dryRun then
    { result := .ok (), world := w, events := [] }
  else
    let key := (SanitizeKubeResourceName identity, admissionWebhookSecretName)
    let call : ApiCall :=
      { op := .createOp, kind := "Secret", nspace := key.1, name := key.2 }
    match createSecretData w.cluster key secret.data with
    | .ok c =>
      { result := .ok (), world := { w with cluster := c }, events := [.api call] }
    | .error e =>
      { result := .error (.api e), world := w, events := [.api call] }

/-- The deployment descriptor built by `CreateDeployment`, with the
generated selector value passed explicitly. -/
def buildDeployment (identity directCSIContainerImage registry org : String)
    (generatedSelectorValue : String) : DeploymentDesc :=
  let name := SanitizeKubeResourceName identity
  let conversionHealthzURL := getConversionHealthzURL identity
  let podSpec : PodSpec :=
    { serviceAccountName := name
      hostIPC := false
      hostPID := false
      hostNetwork := false
      dnsPolicy := ""
      volumes :=
        [newHostPathVolume volumeNameSocketDir
           (newDirectCSIPluginsSocketDir kubeletDirPath (name ++ "-controller")),
         newSecretVolume admissionControllerCertsDir admissionWebhookSecretName,
         newSecretVolume conversionCACert conversionCACert,
         newSecretVolume conversionKeyPair conversionKeyPair]
      containers :=
        [{ name := csiProvisionerContainerName
           image := filepathJoin [registry, org, CSIImageCSIProvisioner]
           args :=
             ["--v=" ++ toString logLevel,
              "--timeout=300s",
              "--csi-address=$(" ++ endpointEnvVarCSI ++ ")",
              "--leader-election",
              "--feature-gates=Topology=true",
              "--strict-topology"]
           env :=
             [{ name := endpointEnvVarCSI
                value := "unix:///csi/csi.sock"
                valueFrom := none }]
           volumeMounts := [newVolumeMount volumeNameSocketDir volumePathSocketDir false false]
           securityContext := some { privileged := true, seccompProfile := none }
           ports := []
           readinessProbe := none
           livenessProbe := none
           terminationMessagePolicy := "FallbackToLogsOnError"
           terminationMessagePath := "/var/log/controller-provisioner-termination-log" },
         { name := directCSIContainerName
           image := filepathJoin [registry, org, directCSIContainerImage]
           args :=
             ["-v=" ++ toString logLevel,
              "--identity=" ++ name,
              "--endpoint=$(" ++ endpointEnvVarCSI ++ ")",
              "--conversion-healthz-url=" ++ conversionHealthzURL,
              "--controller"]
           env :=
             [{ name := kubeNodeNameEnvVar
                value := ""
                valueFrom := some
                  { fieldRef := some { apiVersion := "v1", fieldPath := "spec.nodeName" } } },
              { name := endpointEnvVarCSI
                value := "unix:///csi/csi.sock"
                valueFrom := none }]
           volumeMounts :=
             [newVolumeMount volumeNameSocketDir volumePathSocketDir false false,
              newVolumeMount admissionControllerCertsDir admissionCertsDir false false,
              newVolumeMount conversionCACert conversionCADir false false,
              newVolumeMount conversionKeyPair conversionCertsDir false false]
           securityContext := some { privileged := true, seccompProfile := none }
           ports :=
             [{ containerPort := admissionControllerWebhookPort
                name := admissionControllerWebhookName
                protocol := "TCP" },
              { containerPort := 9898, name := "healthz", protocol := "TCP" },
              { containerPort := ConversionWebhookPort
                name := conversionWebhookPortName
                protocol := "TCP" }]
           readinessProbe := some
             { failureThreshold := 0
               initialDelaySeconds := 0
               timeoutSeconds := 0
               periodSeconds := 0
               handler := getConversionHealthzHandler }
           livenessProbe := none
           terminationMessagePolicy := ""
           terminationMessagePath := "" }]
      nodeSelector := []
      tolerations := [] }
  let deployment : DeploymentDesc :=
    { kind := "Deployment"
      apiVersion := "apps/v1"
      metadata := objMeta identity
      replicas := 3
      selector := AddLabelToSelector { matchLabels := [] } directCSISelector generatedSelectorValue
      template :=
        { metadata :=
            { name := SanitizeKubeResourceName name
              nspace := SanitizeKubeResourceName name
              annotations := [(CreatedByLabel, DirectCSIPluginName)]
              labels :=
                [(directCSISelector, generatedSelectorValue),
                 (webhookSelector, selectorValueEnabled)]
              finalizers := [] }
          spec := podSpec } }
  { deployment with
      metadata :=
        { deployment.metadata with
            finalizers :=
              [SanitizeKubeResourceName identity ++ directCSIFinalizerDeleteProtection] } }

/-- Transliteration of `CreateDeployment`: obtains the admission webhook
certificates, stores the CA bytes in the process-wide validation bundle,
creates the controller secret tolerating AlreadyExists, then writes and
creates the deployment and finally the controller service. -/
def CreateDeployment (env : Env) (identity directCSIContainerImage : String)
    (dryRun : Bool) (registry org : String) (hasWriter : Bool) (w : World) :
    OpResult Unit :=
  let name := SanitizeKubeResourceName identity
  let generatedSelectorValue := generateSanitizedUniqueNameFrom env.shortUUID name
  match env.getCerts [admissionWehookDNSName] with
  | .error msg => { result := .error (.certFailure msg), world := w, events := [] }
  | .ok (caCertBytes, publicCertBytes, privateKeyBytes) =>
    let w := { w with validationWebhookCaBundle := caCertBytes }
    let r1 := CreateControllerSecret identity publicCertBytes privateKeyBytes dryRun w
    let proceed : Bool :=
      match r1.result with
      | .ok _ => true
      | .error e => e.isAlreadyExists
    if proceed then
      let w := r1.world
      let deployment :=
        buildDeployment identity directCSIContainerImage registry org generatedSelectorValue
      let wr := WriteObject hasWriter (.deploymentObj deployment)
      if dryRun then
        { result := .ok (), world := w, events := r1.events ++ wr }
      else
        let key := (SanitizeKubeResourceName identity, deployment.metadata.name)
        let call : ApiCall :=
          { op := .createOp, kind := "Deployment", nspace := key.1, name := key.2 }
        match createKeyed w.cluster.deployments key with
        | .error e =>
          { result := .error (.api e)
            world := w
            events := r1.events ++ wr ++ [.api call] }
        | .ok l =>
          let w := { w with cluster := { w.cluster with deployments := l } }
          let r2 := CreateControllerService generatedSelectorValue identity dryRun w
          { result := r2.result
            world := r2.world
            events := r1.events ++ wr ++ [.api call] ++ r2.events }
    else
      { result := r1.result, world := r1.world, events := r1.events }

/-- Transliteration of `getDriveValidatingWebhookConfig`: the CA bundle of
the client config is the process-wide validation webhook CA bundle,
copied verbatim. -/
def getDriveValidatingWebhookConfig (w : World) (identity : String) :
    ValidatingWebhookConfigurationDesc :=
  let name := SanitizeKubeResourceName identity
  let serviceRef : ServiceReference :=
    { nspace := name, name := validationControllerName, path := some "/validatedrive" }
  let clientConfig : WebhookClientConfig :=
    { service := some serviceRef, caBundle := w.validationWebhookCaBundle }
  let validationRules : List RuleWithOperations :=
    [{ operations := ["UPDATE"]
       apiGroups := ["*"]
       apiVersions := ["*"]
       resources := ["directcsidrives"] }]
  let validatingWebhooks : List ValidatingWebhook :=
    [{ name := validationWebhookConfigName
       clientConfig := clientConfig
       admissionReviewVersions := ["v1", "v1beta1", "v1beta2", "v1beta3"]
       sideEffects := "None"
       rules := validationRules }]
  { kind := "ValidatingWebhookConfiguration"
    apiVersion := "admissionregistration.k8s.io/v1"
    metadata :=
      { name := validationWebhookConfigName
        nspace := name
        annotations := []
        labels := []
        finalizers := [SanitizeKubeResourceName identity ++ directCSIFinalizerDeleteProtection] }
    webhooks := validatingWebhooks }

/-- Transliteration of `RegisterDriveValidationRules`. -/
def RegisterDriveValidationRules (identity : String) (dryRun hasWriter : Bool)
    (w : World) : OpResult Unit :=
  let driveValidatingWebhookConfig := getDriveValidatingWebhookConfig w identity
  let wr := WriteObject hasWriter (.webhookConfigObj driveValidatingWebhookConfig)
  if dryRun then
    { result := .ok (), world := w, events := wr }
  else
    let call : ApiCall :=
      { op := .createOp
        kind := "ValidatingWebhookConfiguration"
        nspace := ""
        name := driveValidatingWebhookConfig.metadata.name }
    match createNamed w.cluster.validatingWebhookConfigs driveValidatingWebhookConfig.metadata.name with
    | .ok l =>
      { result := .ok ()
        world := { w with cluster := { w.cluster with validatingWebhookConfigs := l } }
        events := wr ++ [.api call] }
    | .error e =>
      { result := .error (.api e), world := w, events := wr ++ [.api call] }

/-- Transliteration of `CreateOrUpdateConversionKeyPairSecret`. -/
def CreateOrUpdateConversionKeyPairSecret (identity : String)
    (publicCertBytes privateKeyBytes : Bytes) (dryRun hasWriter : Bool)
    (w : World) : OpResult Unit :=
  let ns := SanitizeKubeResourceName identity
  let secret : SecretDesc :=
    { kind := "Secret"
      apiVersion := "v1"
      metadata :=
        { name := conversionKeyPair
          nspace := ns
          annotations := []
          labels := []
          finalizers := [] }
      data := [(privateKeyFileName, privateKeyBytes), (publicCertFileName, publicCertBytes)] }
  let wr := WriteObject hasWriter (.secretObj secret)
  if dryRun then
    { result := .ok (), world := w, events := wr }
  else
    let getCall : ApiCall :=
      { op := .getOp, kind := "Secret", nspace := ns, name := conversionKeyPair }
    match getSecretData w.cluster (ns, conversionKeyPair) with
    | .error e =>
      if e ≠ ApiErr.notFound then
        { result := .error (.api e), world := w, events := wr ++ [.api getCall] }
      else
        let createCall : ApiCall :=
          { op := .createOp, kind := "Secret", nspace := ns, name := conversionKeyPair }
        match createSecretData w.cluster (ns, conversionKeyPair) secret.data with
        | .ok c =>
          { result := .ok ()
            world := { w with cluster := c }
            events := wr ++ [.api getCall, .api createCall] }
        | .error e2 =>
          { result := .error (.api e2)
            world := w
            events := wr ++ [.api getCall, .api createCall] }
    | .ok _ =>
      let updateCall : ApiCall :=
        { op := .updateOp, kind := "Secret", nspace := ns, name := conversionKeyPair }
      match updateSecretData w.cluster (ns, conversionKeyPair) secret.data with
      | .ok c =>
        { result := .ok ()
          world := { w with cluster := c }
          events := wr ++ [.api getCall, .api updateCall] }
      | .error e2 =>
        { result := .error (.api e2)
          world := w
          events := wr ++ [.api getCall, .api updateCall] }

/-- Transliteration of `CreateOrUpdateConversionCACertSecret`. -/
def CreateOrUpdateConversionCACertSecret (identity : String)
    (caCertBytes : Bytes) (dryRun hasWriter : Bool) (w : World) :
    OpResult Unit :=
  let ns := SanitizeKubeResourceName identity
  let secret : SecretDesc :=
    { kind := "Secret"
      apiVersion := "v1"
      metadata :=
        { name := conversionCACert
          nspace := ns
          annotations := []
          labels := []
          finalizers := [] }
      data := [(caCertFileName, caCertBytes)] }
  let wr := WriteObject hasWriter (.secretObj secret)
  if dryRun then
    { result := .ok (), world := w, events := wr }
  else
    let getCall : ApiCall :=
      { op := .getOp, kind := "Secret", nspace := ns, name := conversionCACert }
    match getSecretData w.cluster (ns, conversionCACert) with
    | .error e =>
      if e ≠ ApiErr.notFound then
        { result := .error (.api e), world := w, events := wr ++ [.api getCall] }
      else
        let createCall : ApiCall :=
          { op := .createOp, kind := "Secret", nspace := ns, name := conversionCACert }
        match createSecretData w.cluster (ns, conversionCACert) secret.data with
        | .ok c =>
          { result := .ok ()
            world := { w with cluster := c }
            events := wr ++ [.api getCall, .api createCall] }
        | .error e2 =>
          { result := .error (.api e2)
            world := w
            events := wr ++ [.api getCall, .api createCall] }
    | .ok _ =>
      let updateCall : ApiCall :=
        { op := .updateOp, kind := "Secret", nspace := ns, name := conversionCACert }
      match updateSecretData w.cluster (ns, conversionCACert) secret.data with
      | .ok c =>
        { result := .ok ()
          world := { w with cluster := c }
          events := wr ++ [.api getCall, .api updateCall] }
      | .error e2 =>
        { result := .error (.api e2)
          world := w
          events := wr ++ [.api getCall, .api updateCall] }

/-- Transliteration of `GetConversionCABundle`: fetches the conversion CA
secret from the cluster first; only when that fetch reports NotFound and
dry-run is active does it fall back to the process-wide cached bundle. -/
def GetConversionCABundle (identity : String) (dryRun : Bool) (w : World) :
    OpResult Bytes :=
  let ns := SanitizeKubeResourceName identity
  let getCall : ApiCall :=
    { op := .getOp, kind := "Secret", nspace := ns, name := conversionCACert }
  match getSecretData w.cluster (ns, conversionCACert) with
  | .error e =>
    if e = ApiErr.notFound && dryRun then
      if w.conversionWebhookCaBundle.length = 0 then
        { result := .error .emptyCABundle, world := w, events := [.api getCall] }
      else
        { result := .ok w.conversionWebhookCaBundle, world := w, events := [.api getCall] }
    else
      { result := .error (.api e), world := w, events := [.api getCall] }
  | .ok data =>
    match data.lookup caCertFileName with
    | some value => { result := .ok value, world := w, events := [.api getCall] }
    | none => { result := .error .emptyCABundle, world := w, events := [.api getCall] }

/-- Transliteration of `checkConversionSecrets`: fetches the key pair
secret and then the CA cert secret, returning the first error. -/
def checkConversionSecrets (identity : String) (w : World) : OpResult Unit :=
  let ns := SanitizeKubeResourceName identity
  let getCall1 : ApiCall :=
    { op := .getOp, kind := "Secret", nspace := ns, name := conversionKeyPair }
  let getCall2 : ApiCall :=
    { op := .getOp, kind := "Secret", nspace := ns, name := conversionCACert }
  match getSecretData w.cluster (ns, conversionKeyPair) with
  | .error e => { result := .error (.api e), world := w, events := [.api getCall1] }
  | .ok _ =>
    match getSecretData w.cluster (ns, conversionCACert) with
    | .error e =>
      { result := .error (.api e), world := w, events := [.api getCall1, .api getCall2] }
    | .ok _ =>
      { result := .ok (), world := w, events := [.api getCall1, .api getCall2] }

/-- Transliteration of `CreateConversionWebhookSecrets`: checks for the
two conversion secrets (these fetches happen before any dry-run check);
when both exist it returns; on NotFound it obtains fresh certificates,
stores the CA bytes in the process-wide conversion bundle, and runs the
two reconcilers. -/
def CreateConversionWebhookSecrets (env : Env) (identity : String)
    (dryRun hasWriter : Bool) (w : World) : OpResult Unit :=
  let chk := checkConversionSecrets identity w
  match chk.result with
  | .ok _ => { result := .ok (), world := w, events := chk.events }
  | .error e =>
    if !e.isNotFound then
      { result := .error e, world := w, events := chk.events }
    else
      match env.getCerts [getConversionWebhookDNSName identity] with
      | .error msg => { result := .error (.certFailure msg), world := w, events := chk.events }
      | .ok (caCertBytes, publicCertBytes, privateKeyBytes) =>
        let w := { w with conversionWebhookCaBundle := caCertBytes }
        let r1 :=
          CreateOrUpdateConversionKeyPairSecret identity publicCertBytes privateKeyBytes
            dryRun hasWriter w
        match r1.result with
        | .error e1 =>
          { result := .error e1, world := r1.world, events := chk.events ++ r1.events }
        | .ok _ =>
          let r2 :=
            CreateOrUpdateConversionCACertSecret identity caCertBytes dryRun hasWriter r1.world
          { result := r2.result
            world := r2.world
            events := chk.events ++ r1.events ++ r2.events }

/- ===== Concrete fixtures for witnesses and counterexamples ===== -/

/-- The empty cluster. -/
def emptyCluster : Cluster :=
  { namespaces := []
    csiDrivers := []
    storageClasses := []
    services := []
    daemonSets := []
    deployments := []
    validatingWebhookConfigs := []
    secrets := []
    brokenSecrets := [] }

/-- A fresh world: empty cluster, both CA-bundle variables still nil. -/
def world0 : World :=
  { cluster := emptyCluster
    validationWebhookCaBundle := []
    conversionWebhookCaBundle := [] }

/-- A certificate collaborator that always succeeds with fixed bytes. -/
def certsOk : List String → Except String (Bytes × Bytes × Bytes) :=
  fun _ => .ok ([10, 11], [20, 21], [30, 31])

/-- An environment offering only the `v1` storage schema version. -/
def envV1 : Env :=
  { offeredStorageVersions := ["v1"], getCerts := certsOk, shortUUID := "abcde" }

/-- An environment offering only the `v1beta1` storage schema version. -/
def envBeta : Env :=
  { offeredStorageVersions := ["v1beta1"], getCerts := certsOk, shortUUID := "abcde" }

/-- A string of `n` copies of the letter a (already in sanitized form). -/
def repeatA (n : Nat) : String :=
  String.mk (List.replicate n 'a')

set_option maxRecDepth 4000 in
/-- C5: the claim's length bound fails on the code.  For the 254-letter
name `repeatA 254` — already in sanitized form, as the first conjunct
shows — the sanitized length 254 is below the source's truncation
threshold of 255, so no truncation happens and the returned selector
token is 254 + 1 + 5 = 260 bytes long, exceeding the claimed 255-byte
bound (and contradicting the source's own comment that the returned name
cannot be more than 255 bytes). -/
theorem C5_token_exceeds_255_bytes :
    SanitizeKubeResourceName (repeatA 254) = repeatA 254 ∧
      (generateSanitizedUniqueNameFrom "abcde" (repeatA 254)).data.length = 260 := by
  constructor
  · decide
  · decide

/-- An environment offering only the `v1alpha1` storage schema version. -/
def envAlpha : Env :=
  { offeredStorageVersions := ["v1alpha1"], getCerts := certsOk, shortUUID := "abcde" }

/-- An environment offering no storage schema version at all. -/
def envNone : Env :=
  { offeredStorageVersions := [], getCerts := certsOk, shortUUID := "abcde" }

/-- C10: although `v1alpha1` is passed as a third candidate to the version
negotiator, neither `CreateCSIDriver` nor `CreateStorageClass` has a
`v1alpha1` branch: whenever the negotiator selects `v1alpha1` (the cluster
offers `v1alpha1` but neither `v1` nor `v1beta1`), both operations return
the unsupported-version error with an empty event trace — nothing is
written to the writer and no create call is issued. -/
theorem C10_v1alpha1_not_handled (env : Env) (identity : String)
    (dryRun hasWriter : Bool) (w : World)
    (h1 : env.offeredStorageVersions.contains "v1" = false)
    (h2 : env.offeredStorageVersions.contains "v1beta1" = false)
    (h3 : env.offeredStorageVersions.contains "v1alpha1" = true) :
    (CreateCSIDriver env identity dryRun hasWriter w).result =
        .error .kubeVersionNotSupported ∧
      (CreateCSIDriver env identity dryRun hasWriter w).events = [] ∧
      (CreateStorageClass env identity dryRun hasWriter w).result =
        .error .kubeVersionNotSupported ∧
      (CreateStorageClass env identity dryRun hasWriter w).events = [] := by
  have hm1 : "v1" ∉ env.offeredStorageVersions := by simpa using h1
  have hm2 : "v1beta1" ∉ env.offeredStorageVersions := by simpa using h2
  have hm3 : "v1alpha1" ∈ env.offeredStorageVersions := by simpa using h3
  have hgv : GetGroupKindVersions env.offeredStorageVersions ["v1", "v1beta1", "v1alpha1"]
      = .ok "v1alpha1" := by
    simp [GetGroupKindVersions, List.find?, hm1, hm2, hm3]
  refine ⟨?_, ?_, ?_, ?_⟩ <;> simp [CreateCSIDriver, CreateStorageClass, hgv]

/-- C10 witness: the concrete environment offering only `v1alpha1`. -/
theorem C10_v1alpha1_not_handled_witness :
    (CreateCSIDriver envAlpha "direct-csi" true true world0).result =
        .error .kubeVersionNotSupported ∧
      (CreateCSIDriver envAlpha "direct-csi" true true world0).events = [] ∧
      (CreateStorageClass envAlpha "direct-csi" true true world0).result =
        .error .kubeVersionNotSupported ∧
      (CreateStorageClass envAlpha "direct-csi" true true world0).events = [] :=
  C10_v1alpha1_not_handled envAlpha "direct-csi" true true world0
    (by decide) (by decide) (by decide)

/-- C4: when none of the schema versions the operations can build
(`v1`, `v1beta1`) is offered by the cluster, `CreateCSIDriver` and
`CreateStorageClass` return the unsupported-version error
(`ErrKubeVersionNotSupported`) and issue no API call: either the
negotiator itself fails with that error, or it selects the unhandled
`v1alpha1` candidate and the default branch returns the same error. -/
theorem C4_unsupported_version_no_create (env : Env) (identity : String)
    (dryRun hasWriter : Bool) (w : World)
    (h1 : env.offeredStorageVersions.contains "v1" = false)
    (h2 : env.offeredStorageVersions.contains "v1beta1" = false) :
    (CreateCSIDriver env identity dryRun hasWriter w).result =
        .error .kubeVersionNotSupported ∧
      apiCallsOf (CreateCSIDriver env identity dryRun hasWriter w).events = [] ∧
      (CreateStorageClass env identity dryRun hasWriter w).result =
        .error .kubeVersionNotSupported ∧
      apiCallsOf (CreateStorageClass env identity dryRun hasWriter w).events = [] := by
  cases h3 : env.offeredStorageVersions.contains "v1alpha1" with
  | false =>
    have hm1 : "v1" ∉ env.offeredStorageVersions := by simpa using h1
    have hm2 : "v1beta1" ∉ env.offeredStorageVersions := by simpa using h2
    have hm3 : "v1alpha1" ∉ env.offeredStorageVersions := by simpa using h3
    have hgv : GetGroupKindVersions env.offeredStorageVersions ["v1", "v1beta1", "v1alpha1"]
        = .error .kubeVersionNotSupported := by
      simp [GetGroupKindVersions, List.find?, hm1, hm2, hm3]
    refine ⟨?_, ?_, ?_, ?_⟩ <;> simp [CreateCSIDriver, CreateStorageClass, hgv, apiCallsOf]
  | true =>
    have hm1 : "v1" ∉ env.offeredStorageVersions := by simpa using h1
    have hm2 : "v1beta1" ∉ env.offeredStorageVersions := by simpa using h2
    have hm3 : "v1alpha1" ∈ env.offeredStorageVersions := by simpa using h3
    have hgv : GetGroupKindVersions env.offeredStorageVersions ["v1", "v1beta1", "v1alpha1"]
        = .ok "v1alpha1" := by
      simp [GetGroupKindVersions, List.find?, hm1, hm2, hm3]
    refine ⟨?_, ?_, ?_, ?_⟩ <;> simp [CreateCSIDriver, CreateStorageClass, hgv, apiCallsOf]

/-- C4 witness: the concrete environment offering no storage version. -/
theorem C4_unsupported_version_no_create_witness :
    (CreateCSIDriver envNone "direct-csi" false true world0).result =
        .error .kubeVersionNotSupported ∧
      apiCallsOf (CreateCSIDriver envNone "direct-csi" false true world0).events = [] ∧
      (CreateStorageClass envNone "direct-csi" false true world0).result =
        .error .kubeVersionNotSupported ∧
      apiCallsOf (CreateStorageClass envNone "direct-csi" false true world0).events = [] :=
  C4_unsupported_version_no_create envNone "direct-csi" false true world0
    (by decide) (by decide)

/-- C3: evaluation at the failing input.  When the cluster offers only the
`v1beta1` storage schema version and a writer is supplied,
`CreateCSIDriver` serializes nothing to the writer — neither in dry-run
mode nor in the live path, where it still issues the create call and
succeeds — whereas the parallel `v1` branch does serialize the built
descriptor.  The source's `v1beta1` branch simply omits the
`utils.WriteObject` call that every other descriptor-building path makes. -/
theorem C3_csidriver_v1beta1_skips_writer :
    writtenObjsOf (CreateCSIDriver envBeta "direct-csi" true true world0).events = [] ∧
      writtenObjsOf (CreateCSIDriver envBeta "direct-csi" false true world0).events = [] ∧
      apiCallsOf (CreateCSIDriver envBeta "direct-csi" false true world0).events =
        [{ op := .createOp, kind := "CSIDriver", nspace := "", name := "direct-csi" }] ∧
      (CreateCSIDriver envBeta "direct-csi" false true world0).result = .ok () ∧
      writtenObjsOf (CreateCSIDriver envV1 "direct-csi" true true world0).events =
        [.csiDriverObj (buildCSIDriverV1 "direct-csi")] :=
  ⟨rfl, rfl, rfl, rfl, rfl⟩

/-- C8 counterexample: in a fresh process (the validation CA bundle
variable never set), `getDriveValidatingWebhookConfig` emits a webhook
configuration whose single webhook has an EMPTY CA bundle — the function
performs no emptiness check, so the claim that the produced configuration
never has an empty CABundle is false. -/
theorem C8_empty_bundle_emitted :
    ((getDriveValidatingWebhookConfig world0 "direct-csi").webhooks.map
        (fun wh => wh.clientConfig.caBundle)) = [[]] :=
  rfl

/-- C8 amended: the CA bundle of the built webhook configuration is a
verbatim copy of the process-wide validation CA bundle; whenever that
cached bundle is non-empty (as after a successful `CreateDeployment`
stored the certificate bytes there) every webhook in the configuration
carries that non-empty bundle, and `RegisterDriveValidationRules`
serializes exactly this configuration to the writer. -/
theorem C8_bundle_mirrors_cache (w : World) (identity : String) (dryRun : Bool)
    (h : w.validationWebhookCaBundle ≠ []) :
    ((getDriveValidatingWebhookConfig w identity).webhooks.map
        (fun wh => wh.clientConfig.caBundle)) = [w.validationWebhookCaBundle] ∧
      (∀ wh ∈ (getDriveValidatingWebhookConfig w identity).webhooks,
        wh.clientConfig.caBundle ≠ []) ∧
      writtenObjsOf (RegisterDriveValidationRules identity dryRun true w).events =
        [.webhookConfigObj (getDriveValidatingWebhookConfig w identity)] := by
  refine ⟨rfl, ?_, ?_⟩
  · intro wh hwh
    simp [getDriveValidatingWebhookConfig] at hwh
    subst hwh
    simpa using h
  · cases dryRun with
    | true => rfl
    | false =>
      cases hc : createNamed w.cluster.validatingWebhookConfigs
          (getDriveValidatingWebhookConfig w identity).metadata.name with
      | ok l => simp [RegisterDriveValidationRules, hc, writtenObjsOf, WriteObject]
      | error e => simp [RegisterDriveValidationRules, hc, writtenObjsOf, WriteObject]

/-- A world whose validation CA bundle has been populated. -/
def worldWithBundle : World :=
  { world0 with validationWebhookCaBundle := [10, 11] }

/-- C8 witness: concrete world with a populated validation CA bundle. -/
theorem C8_bundle_mirrors_cache_witness :
    ((getDriveValidatingWebhookConfig worldWithBundle "direct-csi").webhooks.map
        (fun wh => wh.clientConfig.caBundle)) = [worldWithBundle.validationWebhookCaBundle] ∧
      (∀ wh ∈ (getDriveValidatingWebhookConfig worldWithBundle "direct-csi").webhooks,
        wh.clientConfig.caBundle ≠ []) ∧
      writtenObjsOf (RegisterDriveValidationRules "direct-csi" true true worldWithBundle).events =
        [.webhookConfigObj (getDriveValidatingWebhookConfig worldWithBundle "direct-csi")] :=
  C8_bundle_mirrors_cache worldWithBundle "direct-csi" true (by decide)

/-- C9: in the daemon set built by `CreateDaemonSet`, an empty seccomp
profile name leaves the direct-csi container's security context without a
seccomp profile field (the registrar and liveness containers have no
security context at all), and an empty apparmor profile name adds no
apparmor annotation to the pod template; a non-empty name yields the
corresponding Localhost seccomp profile reference or apparmor annotation
carrying exactly that name. -/
theorem C9_security_profiles_conditional
    (identity image registry org : String) (loopBackOnly : Bool)
    (nodeSel : List (String × String)) (tol : List Toleration)
    (seccompProfileName apparmorProfileName : String) (edd : Bool) (gsv : String) :
    ((seccompProfileName = "" →
      (buildDaemonSet identity image registry org loopBackOnly nodeSel tol
          seccompProfileName apparmorProfileName edd gsv).template.spec.containers.map
          (fun c => c.securityContext) =
        [none, some { privileged := true, seccompProfile := none }, none]) ∧
      (seccompProfileName ≠ "" →
        (buildDaemonSet identity image registry org loopBackOnly nodeSel tol
            seccompProfileName apparmorProfileName edd gsv).template.spec.containers.map
            (fun c => c.securityContext) =
          [none,
           some { privileged := true
                  seccompProfile := some { profileType := "Localhost"
                                           localhostProfile := some seccompProfileName } },
           none]) ∧
      (apparmorProfileName = "" →
        (buildDaemonSet identity image registry org loopBackOnly nodeSel tol
            seccompProfileName apparmorProfileName edd gsv).template.metadata.annotations.lookup
            "container.apparmor.security.beta.kubernetes.io/direct-csi" = none) ∧
      (apparmorProfileName ≠ "" →
        (buildDaemonSet identity image registry org loopBackOnly nodeSel tol
            seccompProfileName apparmorProfileName edd gsv).template.metadata.annotations.lookup
            "container.apparmor.security.beta.kubernetes.io/direct-csi" =
          some apparmorProfileName)) := by
  refine ⟨?_, ?_, ?_, ?_⟩ <;> intro h <;> cases edd <;>
    simp [buildDaemonSet, h, CreatedByLabel, List.lookup]

/-- C9 witness: both the empty-name and the non-empty-name cases at
concrete inputs. -/
theorem C9_security_profiles_conditional_witness :
    (buildDaemonSet "direct-csi" "img" "quay.io" "minio" false [] [] "" "" false
          "tok").template.spec.containers.map (fun c => c.securityContext) =
        [none, some { privileged := true, seccompProfile := none }, none] ∧
      (buildDaemonSet "direct-csi" "img" "quay.io" "minio" false [] [] "profA" "profB" false
            "tok").template.spec.containers.map (fun c => c.securityContext) =
          [none,
           some { privileged := true
                  seccompProfile := some { profileType := "Localhost"
                                           localhostProfile := some "profA" } },
           none] ∧
      (buildDaemonSet "direct-csi" "img" "quay.io" "minio" false [] [] "profA" "profB" false
            "tok").template.metadata.annotations.lookup
            "container.apparmor.security.beta.kubernetes.io/direct-csi" = some "profB" :=
  ⟨(C9_security_profiles_conditional "direct-csi" "img" "quay.io" "minio" false [] []
      "" "" false "tok").1 rfl,
   ((C9_security_profiles_conditional "direct-csi" "img" "quay.io" "minio" false [] []
      "profA" "profB" false "tok").2).1 (by decide),
   (((C9_security_profiles_conditional "direct-csi" "img" "quay.io" "minio" false [] []
      "profA" "profB" false "tok").2).2).2 (by decide)⟩

/-- Left cancellation for string concatenation. -/
theorem stringAppendLeftCancel (a b c : String) (h : a ++ b = a ++ c) : b = c := by
  cases a with | mk ad =>
  cases b with | mk bd =>
  cases c with | mk cd =>
  have h2 : ad ++ bd = ad ++ cd := congrArg String.data h
  exact congrArg String.mk (List.append_cancel_left h2)

/-- Rewrites exactly the two token-bearing fields of a daemon set
descriptor (the label selector and the pod template's matching label
pair) to carry the token `t`. -/
def DaemonSetDesc.withSelectorValue (d : DaemonSetDesc) (t : String) : DaemonSetDesc :=
  { d with
    selector := { matchLabels := [(directCSISelector, t)] }
    template :=
      { d.template with
        metadata :=
          { d.template.metadata with
            labels := [(directCSISelector, t), (webhookSelector, selectorValueEnabled)] } } }

/-- Rewrites exactly the two token-bearing fields of a deployment
descriptor to carry the token `t`. -/
def DeploymentDesc.withSelectorValue (d : DeploymentDesc) (t : String) : DeploymentDesc :=
  { d with
    selector := { matchLabels := [(directCSISelector, t)] }
    template :=
      { d.template with
        metadata :=
          { d.template.metadata with
            labels := [(directCSISelector, t), (webhookSelector, selectorValueEnabled)] } } }

/-- C6: within one call the generated selector token is placed identically
in the workload selector and in the pod template's matching label (clauses
one to four, for the daemon set and the deployment); distinct random
suffixes yield distinct tokens, so two independent calls generate
different tokens (clause five); every other field of the built descriptor
is a deterministic function of the inputs — rewriting only the two
token-bearing fields of a build with token `t1` gives exactly the build
with token `t2` (clauses six and seven); and the daemon set serialized by
`CreateDaemonSet` is precisely the builder's output at the token generated
from this call's random string (clause eight). -/
theorem C6_selector_token_unique_and_consistent
    (env : Env) (identity image registry org : String) (lbo : Bool)
    (nsel : List (String × String)) (tol : List Toleration)
    (sec app : String) (edd : Bool) (t t1 t2 r1 r2 nm : String)
    (dryRun : Bool) (w : World) :
    (buildDaemonSet identity image registry org lbo nsel tol sec app edd t).selector.matchLabels
        = [(directCSISelector, t)] ∧
      (buildDaemonSet identity image registry org lbo nsel tol sec app edd
          t).template.metadata.labels.lookup directCSISelector = some t ∧
      (buildDeployment identity image registry org t).selector.matchLabels
        = [(directCSISelector, t)] ∧
      (buildDeployment identity image registry org t).template.metadata.labels.lookup
          directCSISelector = some t ∧
      (r1 ≠ r2 →
        generateSanitizedUniqueNameFrom r1 nm ≠ generateSanitizedUniqueNameFrom r2 nm) ∧
      (buildDaemonSet identity image registry org lbo nsel tol sec app edd
          t1).withSelectorValue t2
        = buildDaemonSet identity image registry org lbo nsel tol sec app edd t2 ∧
      (buildDeployment identity image registry org t1).withSelectorValue t2
        = buildDeployment identity image registry org t2 ∧
      writtenObjsOf (CreateDaemonSet env identity image dryRun registry org lbo nsel tol
          sec app edd true w).events
        = [.daemonSetObj (buildDaemonSet identity image registry org lbo nsel tol sec app edd
            (generateSanitizedUniqueNameFrom env.shortUUID (SanitizeKubeResourceName identity)))] := by
  refine ⟨rfl, rfl, rfl, rfl, ?_, rfl, rfl, ?_⟩
  · intro hne heq
    simp only [generateSanitizedUniqueNameFrom, hyphenConcat] at heq
    exact hne (stringAppendLeftCancel _ _ _ heq)
  · cases dryRun with
    | true => rfl
    | false =>
      cases hc : createKeyed w.cluster.daemonSets
          (SanitizeKubeResourceName identity,
            (buildDaemonSet identity image registry org lbo nsel tol sec app edd
              (generateSanitizedUniqueNameFrom env.shortUUID
                (SanitizeKubeResourceName identity))).metadata.name) with
      | ok l => simp [CreateDaemonSet, hc, writtenObjsOf, WriteObject]
      | error e => simp [CreateDaemonSet, hc, writtenObjsOf, WriteObject]

/-- C6 witness: distinct concrete random suffixes give distinct tokens. -/
theorem C6_selector_token_unique_and_consistent_witness :
    generateSanitizedUniqueNameFrom "aaaaa" "direct-csi"
      ≠ generateSanitizedUniqueNameFrom "bbbbb" "direct-csi" :=
  (C6_selector_token_unique_and_consistent envV1 "direct-csi" "img" "quay.io" "minio"
      false [] [] "" "" false "tok" "tok" "tok" "aaaaa" "bbbbb" "direct-csi" true
      world0).2.2.2.2.1 (by decide)

/-- Looking up a key absent from `l` after appending `(k, d)` finds `d`. -/
theorem lookupAppendNone {α β : Type} [BEq α] [LawfulBEq α]
    (l : List (α × β)) (k : α) (d : β) (h : l.lookup k = none) :
    (l ++ [(k, d)]).lookup k = some d := by
  induction l with
  | nil => simp [List.lookup]
  | cons p t ih =>
    rcases p with ⟨a, b⟩
    cases hbk : (k == a) with
    | true =>
      simp only [List.lookup, hbk] at h
      simp at h
    | false =>
      simp only [List.cons_append, List.lookup, hbk] at h ⊢
      exact ih h

/-- Replacing every entry keyed `k` by `(k, d)` makes lookup of `k` find
`d`, provided `k` was present. -/
theorem lookupMapReplace {α β : Type} [DecidableEq α] [BEq α] [LawfulBEq α]
    (l : List (α × β)) (k : α) (d v : β) (h : l.lookup k = some v) :
    (l.map (fun kv => if kv.1 = k then (k, d) else kv)).lookup k = some d := by
  induction l with
  | nil => simp [List.lookup] at h
  | cons p t ih =>
    rcases p with ⟨a, b⟩
    cases hbk : (k == a) with
    | true =>
      have hak : a = k := (eq_of_beq hbk).symm
      subst hak
      have hf : (if (a, b).1 = a then (a, d) else (a, b)) = (a, d) := by simp
      simp only [List.map_cons, hf]
      simp [List.lookup]
    | false =>
      have hk : ¬ (a = k) := fun h' => by simp [h'] at hbk
      have hmap : List.map (fun kv : α × β => if kv.1 = k then (k, d) else kv) ((a, b) :: t)
          = (a, b) :: List.map (fun kv => if kv.1 = k then (k, d) else kv) t := by
        simp [hk]
      rw [hmap]
      simp only [List.lookup, hbk] at h ⊢
      exact ih h

/-- A non-dry-run key pair reconciliation on a cluster whose fetch is not
broken always succeeds and leaves the secret holding exactly the supplied
data, whether it had to create or to update; the broken-key set is
untouched. -/
theorem keyPairReconcileRun (identity : String) (pub priv : Bytes) (hw : Bool) (w : World)
    (hb : w.cluster.brokenSecrets.contains
      (SanitizeKubeResourceName identity, conversionKeyPair) = false) :
    (CreateOrUpdateConversionKeyPairSecret identity pub priv false hw w).result = .ok () ∧
      (CreateOrUpdateConversionKeyPairSecret identity pub priv false hw
          w).world.cluster.secrets.lookup (SanitizeKubeResourceName identity, conversionKeyPair)
        = some [(privateKeyFileName, priv), (publicCertFileName, pub)] ∧
      (CreateOrUpdateConversionKeyPairSecret identity pub priv false hw
          w).world.cluster.brokenSecrets = w.cluster.brokenSecrets := by
  have hbm : (SanitizeKubeResourceName identity, conversionKeyPair)
      ∉ w.cluster.brokenSecrets := by simpa using hb
  cases hl : w.cluster.secrets.lookup (SanitizeKubeResourceName identity, conversionKeyPair) with
  | none =>
    have hget : getSecretData w.cluster (SanitizeKubeResourceName identity, conversionKeyPair)
        = .error .notFound := by
      simp [getSecretData, hbm, hl]
    have hcreate : createSecretData w.cluster
        (SanitizeKubeResourceName identity, conversionKeyPair)
        [(privateKeyFileName, priv), (publicCertFileName, pub)]
        = .ok { w.cluster with
            secrets := w.cluster.secrets ++
              [((SanitizeKubeResourceName identity, conversionKeyPair),
                [(privateKeyFileName, priv), (publicCertFileName, pub)])] } := by
      simp [createSecretData, hl]
    refine ⟨?_, ?_, ?_⟩ <;>
      simp [CreateOrUpdateConversionKeyPairSecret, hget, hcreate,
        lookupAppendNone _ _ _ hl]
  | some v =>
    have hget : getSecretData w.cluster (SanitizeKubeResourceName identity, conversionKeyPair)
        = .ok v := by
      simp [getSecretData, hbm, hl]
    have hupd : updateSecretData w.cluster
        (SanitizeKubeResourceName identity, conversionKeyPair)
        [(privateKeyFileName, priv), (publicCertFileName, pub)]
        = .ok { w.cluster with
            secrets := w.cluster.secrets.map
              (fun kv => if kv.1 = (SanitizeKubeResourceName identity, conversionKeyPair)
                then ((SanitizeKubeResourceName identity, conversionKeyPair),
                  [(privateKeyFileName, priv), (publicCertFileName, pub)])
                else kv) } := by
      simp [updateSecretData, hl]
    refine ⟨?_, ?_, ?_⟩ <;>
      simp [CreateOrUpdateConversionKeyPairSecret, hget, hupd,
        lookupMapReplace _ _ _ _ hl]

/-- A non-dry-run CA cert reconciliation on a cluster whose fetch is not
broken always succeeds and leaves the secret holding exactly the supplied
data; the broken-key set is untouched. -/
theorem caCertReconcileRun (identity : String) (ca : Bytes) (hw : Bool) (w : World)
    (hb : w.cluster.brokenSecrets.contains
      (SanitizeKubeResourceName identity, conversionCACert) = false) :
    (CreateOrUpdateConversionCACertSecret identity ca false hw w).result = .ok () ∧
      (CreateOrUpdateConversionCACertSecret identity ca false hw
          w).world.cluster.secrets.lookup (SanitizeKubeResourceName identity, conversionCACert)
        = some [(caCertFileName, ca)] ∧
      (CreateOrUpdateConversionCACertSecret identity ca false hw
          w).world.cluster.brokenSecrets = w.cluster.brokenSecrets := by
  have hbm : (SanitizeKubeResourceName identity, conversionCACert)
      ∉ w.cluster.brokenSecrets := by simpa using hb
  cases hl : w.cluster.secrets.lookup (SanitizeKubeResourceName identity, conversionCACert) with
  | none =>
    have hget : getSecretData w.cluster (SanitizeKubeResourceName identity, conversionCACert)
        = .error .notFound := by
      simp [getSecretData, hbm, hl]
    have hcreate : createSecretData w.cluster
        (SanitizeKubeResourceName identity, conversionCACert)
        [(caCertFileName, ca)]
        = .ok { w.cluster with
            secrets := w.cluster.secrets ++
              [((SanitizeKubeResourceName identity, conversionCACert),
                [(caCertFileName, ca)])] } := by
      simp [createSecretData, hl]
    refine ⟨?_, ?_, ?_⟩ <;>
      simp [CreateOrUpdateConversionCACertSecret, hget, hcreate,
        lookupAppendNone _ _ _ hl]
  | some v =>
    have hget : getSecretData w.cluster (SanitizeKubeResourceName identity, conversionCACert)
        = .ok v := by
      simp [getSecretData, hbm, hl]
    have hupd : updateSecretData w.cluster
        (SanitizeKubeResourceName identity, conversionCACert)
        [(caCertFileName, ca)]
        = .ok { w.cluster with
            secrets := w.cluster.secrets.map
              (fun kv => if kv.1 = (SanitizeKubeResourceName identity, conversionCACert)
                then ((SanitizeKubeResourceName identity, conversionCACert),
                  [(caCertFileName, ca)])
                else kv) } := by
      simp [updateSecretData, hl]
    refine ⟨?_, ?_, ?_⟩ <;>
      simp [CreateOrUpdateConversionCACertSecret, hget, hupd,
        lookupMapReplace _ _ _ _ hl]

/-- C2: for every identity, payload and non-dry-run invocation, each
conversion-secret reconciler fetches the existing secret by name; a fetch
failure other than NotFound is returned to the caller with no further API
call (clauses one and five); on NotFound the secret is created with the
supplied data (clauses two and six); on a successful fetch the secret's
data is overwritten and an update is issued (clauses three and seven);
and two successive calls with different payloads leave the secret holding
the second call's data (clauses four and eight). -/
theorem C2_reconcilers_get_create_update (identity : String)
    (pub1 priv1 pub2 priv2 ca1 ca2 : Bytes) (hw hw2 : Bool) (w : World) :
    ((w.cluster.brokenSecrets.contains
        (SanitizeKubeResourceName identity, conversionKeyPair) = true →
      (CreateOrUpdateConversionKeyPairSecret identity pub1 priv1 false hw w).result
          = .error (.api (.otherErr "internal error")) ∧
        apiCallsOf (CreateOrUpdateConversionKeyPairSecret identity pub1 priv1 false hw
            w).events
          = [{ op := .getOp, kind := "Secret", nspace := SanitizeKubeResourceName identity,
               name := conversionKeyPair }]) ∧
      (w.cluster.brokenSecrets.contains
          (SanitizeKubeResourceName identity, conversionKeyPair) = false →
        w.cluster.secrets.lookup (SanitizeKubeResourceName identity, conversionKeyPair)
            = none →
        (CreateOrUpdateConversionKeyPairSecret identity pub1 priv1 false hw w).result
            = .ok () ∧
          apiCallsOf (CreateOrUpdateConversionKeyPairSecret identity pub1 priv1 false hw
              w).events
            = [{ op := .getOp, kind := "Secret", nspace := SanitizeKubeResourceName identity,
                 name := conversionKeyPair },
               { op := .createOp, kind := "Secret",
                 nspace := SanitizeKubeResourceName identity, name := conversionKeyPair }] ∧
          (CreateOrUpdateConversionKeyPairSecret identity pub1 priv1 false hw
              w).world.cluster.secrets.lookup
              (SanitizeKubeResourceName identity, conversionKeyPair)
            = some [(privateKeyFileName, priv1), (publicCertFileName, pub1)]) ∧
      (∀ v, w.cluster.brokenSecrets.contains
          (SanitizeKubeResourceName identity, conversionKeyPair) = false →
        w.cluster.secrets.lookup (SanitizeKubeResourceName identity, conversionKeyPair)
            = some v →
        (CreateOrUpdateConversionKeyPairSecret identity pub1 priv1 false hw w).result
            = .ok () ∧
          apiCallsOf (CreateOrUpdateConversionKeyPairSecret identity pub1 priv1 false hw
              w).events
            = [{ op := .getOp, kind := "Secret", nspace := SanitizeKubeResourceName identity,
                 name := conversionKeyPair },
               { op := .updateOp, kind := "Secret",
                 nspace := SanitizeKubeResourceName identity, name := conversionKeyPair }] ∧
          (CreateOrUpdateConversionKeyPairSecret identity pub1 priv1 false hw
              w).world.cluster.secrets.lookup
              (SanitizeKubeResourceName identity, conversionKeyPair)
            = some [(privateKeyFileName, priv1), (publicCertFileName, pub1)]) ∧
      (w.cluster.brokenSecrets.contains
          (SanitizeKubeResourceName identity, conversionKeyPair) = false →
        (CreateOrUpdateConversionKeyPairSecret identity pub2 priv2 false hw2
            (CreateOrUpdateConversionKeyPairSecret identity pub1 priv1 false hw
              w).world).result = .ok () ∧
          (CreateOrUpdateConversionKeyPairSecret identity pub2 priv2 false hw2
              (CreateOrUpdateConversionKeyPairSecret identity pub1 priv1 false hw
                w).world).world.cluster.secrets.lookup
              (SanitizeKubeResourceName identity, conversionKeyPair)
            = some [(privateKeyFileName, priv2), (publicCertFileName, pub2)]) ∧
      (w.cluster.brokenSecrets.contains
          (SanitizeKubeResourceName identity, conversionCACert) = true →
        (CreateOrUpdateConversionCACertSecret identity ca1 false hw w).result
            = .error (.api (.otherErr "internal error"))) ∧
      (w.cluster.brokenSecrets.contains
          (SanitizeKubeResourceName identity, conversionCACert) = false →
        w.cluster.secrets.lookup (SanitizeKubeResourceName identity, conversionCACert)
            = none →
        (CreateOrUpdateConversionCACertSecret identity ca1 false hw w).result = .ok () ∧
          apiCallsOf (CreateOrUpdateConversionCACertSecret identity ca1 false hw w).events
            = [{ op := .getOp, kind := "Secret", nspace := SanitizeKubeResourceName identity,
                 name := conversionCACert },
               { op := .createOp, kind := "Secret",
                 nspace := SanitizeKubeResourceName identity, name := conversionCACert }] ∧
          (CreateOrUpdateConversionCACertSecret identity ca1 false hw
              w).world.cluster.secrets.lookup
              (SanitizeKubeResourceName identity, conversionCACert)
            = some [(caCertFileName, ca1)]) ∧
      (∀ v, w.cluster.brokenSecrets.contains
          (SanitizeKubeResourceName identity, conversionCACert) = false →
        w.cluster.secrets.lookup (SanitizeKubeResourceName identity, conversionCACert)
            = some v →
        (CreateOrUpdateConversionCACertSecret identity ca1 false hw w).result = .ok () ∧
          apiCallsOf (CreateOrUpdateConversionCACertSecret identity ca1 false hw w).events
            = [{ op := .getOp, kind := "Secret", nspace := SanitizeKubeResourceName identity,
                 name := conversionCACert },
               { op := .updateOp, kind := "Secret",
                 nspace := SanitizeKubeResourceName identity, name := conversionCACert }] ∧
          (CreateOrUpdateConversionCACertSecret identity ca1 false hw
              w).world.cluster.secrets.lookup
              (SanitizeKubeResourceName identity, conversionCACert)
            = some [(caCertFileName, ca1)]) ∧
      (w.cluster.brokenSecrets.contains
          (SanitizeKubeResourceName identity, conversionCACert) = false →
        (CreateOrUpdateConversionCACertSecret identity ca2 false hw2
            (CreateOrUpdateConversionCACertSecret identity ca1 false hw
              w).world).result = .ok () ∧
          (CreateOrUpdateConversionCACertSecret identity ca2 false hw2
              (CreateOrUpdateConversionCACertSecret identity ca1 false hw
                w).world).world.cluster.secrets.lookup
              (SanitizeKubeResourceName identity, conversionCACert)
            = some [(caCertFileName, ca2)])) := by
  refine ⟨?_, ?_, ?_, ?_, ?_, ?_, ?_, ?_⟩
  · intro hb
    have hbm : (SanitizeKubeResourceName identity, conversionKeyPair)
        ∈ w.cluster.brokenSecrets := by simpa using hb
    have hget : getSecretData w.cluster (SanitizeKubeResourceName identity, conversionKeyPair)
        = .error (.otherErr "internal error") := by
      simp [getSecretData, hbm]
    cases hw <;>
      simp [CreateOrUpdateConversionKeyPairSecret, hget, apiCallsOf, WriteObject]
  · intro hb hl
    have hbm : (SanitizeKubeResourceName identity, conversionKeyPair)
        ∉ w.cluster.brokenSecrets := by simpa using hb
    have hget : getSecretData w.cluster (SanitizeKubeResourceName identity, conversionKeyPair)
        = .error .notFound := by
      simp [getSecretData, hbm, hl]
    have hcreate : createSecretData w.cluster
        (SanitizeKubeResourceName identity, conversionKeyPair)
        [(privateKeyFileName, priv1), (publicCertFileName, pub1)]
        = .ok { w.cluster with
            secrets := w.cluster.secrets ++
              [((SanitizeKubeResourceName identity, conversionKeyPair),
                [(privateKeyFileName, priv1), (publicCertFileName, pub1)])] } := by
      simp [createSecretData, hl]
    refine ⟨?_, ?_, ?_⟩ <;> cases hw <;>
      simp [CreateOrUpdateConversionKeyPairSecret, hget, hcreate, apiCallsOf, WriteObject,
        lookupAppendNone _ _ _ hl]
  · intro v hb hl
    have hbm : (SanitizeKubeResourceName identity, conversionKeyPair)
        ∉ w.cluster.brokenSecrets := by simpa using hb
    have hget : getSecretData w.cluster (SanitizeKubeResourceName identity, conversionKeyPair)
        = .ok v := by
      simp [getSecretData, hbm, hl]
    have hupd : updateSecretData w.cluster
        (SanitizeKubeResourceName identity, conversionKeyPair)
        [(privateKeyFileName, priv1), (publicCertFileName, pub1)]
        = .ok { w.cluster with
            secrets := w.cluster.secrets.map
              (fun kv => if kv.1 = (SanitizeKubeResourceName identity, conversionKeyPair)
                then ((SanitizeKubeResourceName identity, conversionKeyPair),
                  [(privateKeyFileName, priv1), (publicCertFileName, pub1)])
                else kv) } := by
      simp [updateSecretData, hl]
    refine ⟨?_, ?_, ?_⟩ <;> cases hw <;>
      simp [CreateOrUpdateConversionKeyPairSecret, hget, hupd, apiCallsOf, WriteObject,
        lookupMapReplace _ _ _ _ hl]
  · intro hb
    obtain ⟨h1, h2, h3⟩ := keyPairReconcileRun identity pub1 priv1 hw w hb
    have hb2 : (CreateOrUpdateConversionKeyPairSecret identity pub1 priv1 false hw
        w).world.cluster.brokenSecrets.contains
        (SanitizeKubeResourceName identity, conversionKeyPair) = false := by
      rw [h3]; exact hb
    obtain ⟨g1, g2, g3⟩ := keyPairReconcileRun identity pub2 priv2 hw2 _ hb2
    exact ⟨g1, g2⟩
  · intro hb
    have hbm : (SanitizeKubeResourceName identity, conversionCACert)
        ∈ w.cluster.brokenSecrets := by simpa using hb
    have hget : getSecretData w.cluster (SanitizeKubeResourceName identity, conversionCACert)
        = .error (.otherErr "internal error") := by
      simp [getSecretData, hbm]
    cases hw <;>
      simp [CreateOrUpdateConversionCACertSecret, hget]
  · intro hb hl
    have hbm : (SanitizeKubeResourceName identity, conversionCACert)
        ∉ w.cluster.brokenSecrets := by simpa using hb
    have hget : getSecretData w.cluster (SanitizeKubeResourceName identity, conversionCACert)
        = .error .notFound := by
      simp [getSecretData, hbm, hl]
    have hcreate : createSecretData w.cluster
        (SanitizeKubeResourceName identity, conversionCACert)
        [(caCertFileName, ca1)]
        = .ok { w.cluster with
            secrets := w.cluster.secrets ++
              [((SanitizeKubeResourceName identity, conversionCACert),
                [(caCertFileName, ca1)])] } := by
      simp [createSecretData, hl]
    refine ⟨?_, ?_, ?_⟩ <;> cases hw <;>
      simp [CreateOrUpdateConversionCACertSecret, hget, hcreate, apiCallsOf, WriteObject,
        lookupAppendNone _ _ _ hl]
  · intro v hb hl
    have hbm : (SanitizeKubeResourceName identity, conversionCACert)
        ∉ w.cluster.brokenSecrets := by simpa using hb
    have hget : getSecretData w.cluster (SanitizeKubeResourceName identity, conversionCACert)
        = .ok v := by
      simp [getSecretData, hbm, hl]
    have hupd : updateSecretData w.cluster
        (SanitizeKubeResourceName identity, conversionCACert)
        [(caCertFileName, ca1)]
        = .ok { w.cluster with
            secrets := w.cluster.secrets.map
              (fun kv => if kv.1 = (SanitizeKubeResourceName identity, conversionCACert)
                then ((SanitizeKubeResourceName identity, conversionCACert),
                  [(caCertFileName, ca1)])
                else kv) } := by
      simp [updateSecretData, hl]
    refine ⟨?_, ?_, ?_⟩ <;> cases hw <;>
      simp [CreateOrUpdateConversionCACertSecret, hget, hupd, apiCallsOf, WriteObject,
        lookupMapReplace _ _ _ _ hl]
  · intro hb
    obtain ⟨h1, h2, h3⟩ := caCertReconcileRun identity ca1 hw w hb
    have hb2 : (CreateOrUpdateConversionCACertSecret identity ca1 false hw
        w).world.cluster.brokenSecrets.contains
        (SanitizeKubeResourceName identity, conversionCACert) = false := by
      rw [h3]; exact hb
    obtain ⟨g1, g2, g3⟩ := caCertReconcileRun identity ca2 hw2 _ hb2
    exact ⟨g1, g2⟩

/-- C2 witness: on the empty cluster, two successive key pair
reconciliations converge to the second call's data. -/
theorem C2_reconcilers_get_create_update_witness :
    (CreateOrUpdateConversionKeyPairSecret "direct-csi" [2] [3] false true
        (CreateOrUpdateConversionKeyPairSecret "direct-csi" [0] [1] false true
          world0).world).result = .ok () ∧
      (CreateOrUpdateConversionKeyPairSecret "direct-csi" [2] [3] false true
          (CreateOrUpdateConversionKeyPairSecret "direct-csi" [0] [1] false true
            world0).world).world.cluster.secrets.lookup
          (SanitizeKubeResourceName "direct-csi", conversionKeyPair)
        = some [(privateKeyFileName, [3]), (publicCertFileName, [2])] :=
  (C2_reconcilers_get_create_update "direct-csi" [0] [1] [2] [3] [] [] true true
      world0).2.2.2.1 (by decide)

/-- C1 counterexample: with dry-run active on a fresh world,
`GetConversionCABundle` still issues a get call to the orchestration API
(the fetch precedes the dry-run check), and `CreateConversionWebhookSecrets`
likewise issues a get call for its existence check — refuting the claim
that these operations contact no API endpoint under dry-run. -/
theorem C1_dry_run_still_issues_get_calls :
    apiCallsOf (GetConversionCABundle "direct-csi" true world0).events
        = [{ op := .getOp, kind := "Secret", nspace := "direct-csi",
             name := conversionCACert }] ∧
      apiCallsOf (CreateConversionWebhookSecrets envV1 "direct-csi" true true world0).events
        = [{ op := .getOp, kind := "Secret", nspace := "direct-csi",
             name := conversionKeyPair }] :=
  ⟨rfl, rfl⟩

/-- C1 amended: in dry-run mode no create or update call is ever issued;
every installer operation except `GetConversionCABundle` and
`CreateConversionWebhookSecrets` issues no API call at all, while those
two issue only get calls (their existence checks run before the dry-run
short-circuit); and when a writer is supplied the would-be object is
serialized to it — unconditionally for the namespace, service, daemon
set, conversion-secret and webhook-registration operations, for
`CreateCSIDriver` when the negotiator selects `v1` (its `v1beta1` branch
omits the write, see the C3 finding), for `CreateStorageClass` on both
schema branches, and for `CreateDeployment` once the certificate
collaborator succeeds. -/
theorem C1_dry_run_no_create_update (env : Env) (identity image registry org gsv : String)
    (lbo edd : Bool) (nsel : List (String × String)) (tol : List Toleration)
    (sec app : String) (hw : Bool) (w : World) (pub priv ca : Bytes) (vs : List String) :
    apiCallsOf (CreateNamespace identity true hw w).events = [] ∧
      apiCallsOf (CreateCSIDriver env identity true hw w).events = [] ∧
      apiCallsOf (CreateStorageClass env identity true hw w).events = [] ∧
      apiCallsOf (CreateService identity true hw w).events = [] ∧
      apiCallsOf (CreateDaemonSet env identity image true registry org lbo nsel tol
          sec app edd hw w).events = [] ∧
      apiCallsOf (CreateDeployment env identity image true registry org hw w).events = [] ∧
      apiCallsOf (CreateControllerService gsv identity true w).events = [] ∧
      apiCallsOf (CreateControllerSecret identity pub priv true w).events = [] ∧
      apiCallsOf (CreateOrUpdateConversionKeyPairSecret identity pub priv true hw
          w).events = [] ∧
      apiCallsOf (CreateOrUpdateConversionCACertSecret identity ca true hw w).events = [] ∧
      apiCallsOf (RegisterDriveValidationRules identity true hw w).events = [] ∧
      (∀ c ∈ apiCallsOf (GetConversionCABundle identity true w).events, c.op = .getOp) ∧
      (∀ c ∈ apiCallsOf (CreateConversionWebhookSecrets env identity true hw w).events,
        c.op = .getOp) ∧
      (writtenObjsOf (CreateNamespace identity true true w).events).length = 1 ∧
      (writtenObjsOf (CreateService identity true true w).events).length = 1 ∧
      (writtenObjsOf (CreateDaemonSet env identity image true registry org lbo nsel tol
          sec app edd true w).events).length = 1 ∧
      (writtenObjsOf (CreateOrUpdateConversionKeyPairSecret identity pub priv true true
          w).events).length = 1 ∧
      (writtenObjsOf (CreateOrUpdateConversionCACertSecret identity ca true true
          w).events).length = 1 ∧
      (writtenObjsOf (RegisterDriveValidationRules identity true true w).events).length = 1 ∧
      (writtenObjsOf (CreateCSIDriver { env with offeredStorageVersions := "v1" :: vs }
          identity true true w).events).length = 1 ∧
      (writtenObjsOf (CreateStorageClass { env with offeredStorageVersions := "v1" :: vs }
          identity true true w).events).length = 1 ∧
      (writtenObjsOf (CreateStorageClass { env with offeredStorageVersions := "v1beta1" :: vs }
          identity true true w).events).length = 1 ∧
      (writtenObjsOf (CreateDeployment
          { env with getCerts := fun _ => .ok (ca, pub, priv) }
          identity image true registry org true w).events).length = 1 := by
  refine ⟨?_, ?_, ?_, ?_, ?_, ?_, ?_, ?_, ?_, ?_, ?_, ?_, ?_, ?_, ?_, ?_, ?_, ?_, ?_,
    ?_, ?_, ?_, ?_⟩
  · cases hw <;> simp [CreateNamespace, apiCallsOf, WriteObject]
  · cases hgv : GetGroupKindVersions env.offeredStorageVersions ["v1", "v1beta1", "v1alpha1"] with
    | error e => simp [CreateCSIDriver, hgv, apiCallsOf]
    | ok v =>
      simp only [CreateCSIDriver, hgv]
      split <;> cases hw <;> simp [apiCallsOf, WriteObject]
  · cases hgv : GetGroupKindVersions env.offeredStorageVersions ["v1", "v1beta1", "v1alpha1"] with
    | error e => simp [CreateStorageClass, hgv, apiCallsOf]
    | ok v =>
      simp only [CreateStorageClass, hgv]
      split <;> cases hw <;> simp [apiCallsOf, WriteObject]
  · cases hw <;> simp [CreateService, apiCallsOf, WriteObject]
  · cases hw <;> simp [CreateDaemonSet, apiCallsOf, WriteObject]
  · cases hgc : env.getCerts [admissionWehookDNSName] with
    | error msg => simp [CreateDeployment, hgc, apiCallsOf]
    | ok trip =>
      obtain ⟨ca3, pub3, priv3⟩ := trip
      cases hw <;>
        simp [CreateDeployment, hgc, CreateControllerSecret, apiCallsOf, WriteObject]
  · simp [CreateControllerService, apiCallsOf]
  · simp [CreateControllerSecret, apiCallsOf]
  · cases hw <;> simp [CreateOrUpdateConversionKeyPairSecret, apiCallsOf, WriteObject]
  · cases hw <;> simp [CreateOrUpdateConversionCACertSecret, apiCallsOf, WriteObject]
  · cases hw <;> simp [RegisterDriveValidationRules, apiCallsOf, WriteObject]
  · have hev : (GetConversionCABundle identity true w).events =
        [.api { op := .getOp, kind := "Secret", nspace := SanitizeKubeResourceName identity,
                name := conversionCACert }] := by
      cases hg : getSecretData w.cluster (SanitizeKubeResourceName identity, conversionCACert) with
      | error e =>
        simp only [GetConversionCABundle, hg]
        split
        · split <;> rfl
        · rfl
      | ok d =>
        simp only [GetConversionCABundle, hg]
        split <;> rfl
    intro c hc
    simp [hev, apiCallsOf] at hc
    subst hc
    rfl
  · have hchk : ∀ c ∈ apiCallsOf (checkConversionSecrets identity w).events, c.op = .getOp := by
      cases h1 : getSecretData w.cluster (SanitizeKubeResourceName identity, conversionKeyPair) with
      | error e1 => simp [checkConversionSecrets, h1, apiCallsOf]
      | ok d1 =>
        cases h2 : getSecretData w.cluster
            (SanitizeKubeResourceName identity, conversionCACert) with
        | error e2 => simp [checkConversionSecrets, h1, h2, apiCallsOf]
        | ok d2 => simp [checkConversionSecrets, h1, h2, apiCallsOf]
    intro c hc
    revert hc
    unfold CreateConversionWebhookSecrets
    cases hres : (checkConversionSecrets identity w).result with
    | ok u =>
      simp only [hres]
      intro hc
      exact hchk c hc
    | error e =>
      simp only [hres]
      cases he : e.isNotFound with
      | false =>
        simp only [he, Bool.not_false]
        intro hc
        exact hchk c hc
      | true =>
        simp only [he, Bool.not_true]
        cases hgc : env.getCerts [getConversionWebhookDNSName identity] with
        | error m =>
          simp only [hgc]
          intro hc
          exact hchk c hc
        | ok trip =>
          obtain ⟨ca3, pub3, priv3⟩ := trip
          simp only [hgc]
          cases hw with
          | true =>
            intro hc
            refine hchk c ?_
            simpa [apiCallsOf, CreateOrUpdateConversionKeyPairSecret,
              CreateOrUpdateConversionCACertSecret, WriteObject,
              List.filterMap_append] using hc
          | false =>
            intro hc
            refine hchk c ?_
            simpa [apiCallsOf, CreateOrUpdateConversionKeyPairSecret,
              CreateOrUpdateConversionCACertSecret, WriteObject,
              List.filterMap_append] using hc
  · simp [CreateNamespace, writtenObjsOf, WriteObject]
  · simp [CreateService, writtenObjsOf, WriteObject]
  · simp [CreateDaemonSet, writtenObjsOf, WriteObject]
  · simp [CreateOrUpdateConversionKeyPairSecret, writtenObjsOf, WriteObject]
  · simp [CreateOrUpdateConversionCACertSecret, writtenObjsOf, WriteObject]
  · simp [RegisterDriveValidationRules, writtenObjsOf, WriteObject]
  · have hgv : GetGroupKindVersions ("v1" :: vs) ["v1", "v1beta1", "v1alpha1"] = .ok "v1" := by
      simp [GetGroupKindVersions, List.find?]
    simp [CreateCSIDriver, hgv, writtenObjsOf, WriteObject]
  · have hgv : GetGroupKindVersions ("v1" :: vs) ["v1", "v1beta1", "v1alpha1"] = .ok "v1" := by
      simp [GetGroupKindVersions, List.find?]
    simp [CreateStorageClass, hgv, writtenObjsOf, WriteObject]
  · cases hvv : vs.contains "v1" with
    | true =>
      have hgv : GetGroupKindVersions ("v1beta1" :: vs) ["v1", "v1beta1", "v1alpha1"]
          = .ok "v1" := by
        have : "v1" ∈ vs := by simpa using hvv
        simp [GetGroupKindVersions, List.find?, this]
      simp [CreateStorageClass, hgv, writtenObjsOf, WriteObject]
    | false =>
      have hgv : GetGroupKindVersions ("v1beta1" :: vs) ["v1", "v1beta1", "v1alpha1"]
          = .ok "v1beta1" := by
        have : ¬ ("v1" ∈ vs) := by simpa using hvv
        simp [GetGroupKindVersions, List.find?, this]
      simp [CreateStorageClass, hgv, writtenObjsOf, WriteObject]
  · simp [CreateDeployment, CreateControllerSecret, writtenObjsOf, WriteObject]

/-- C7: an AlreadyExists failure from the orchestration API is treated as
success only in the controller-secret sub-step inside `CreateDeployment`:
on a world `wA` where the admission webhook secret already exists but the
deployment and controller service do not, the composite operation
succeeds (clause one).  Every other create path surfaces AlreadyExists
verbatim: on a world `wB` where the respective resource already exists,
namespace, CSI driver, storage class, service, daemon set, the deployment
object itself, controller service, controller secret, and webhook
registration all return the AlreadyExists error (clauses two to ten). -/
theorem C7_already_exists_tolerated_only_for_controller_secret
    (env : Env) (identity image registry org gsv : String)
    (lbo edd hw : Bool) (nsel : List (String × String)) (tol : List Toleration)
    (sec app : String) (pub priv ca : Bytes) (vs : List String) (wA wB : World)
    (hc : env.getCerts [admissionWehookDNSName] = .ok (ca, pub, priv))
    (hA1 : (wA.cluster.secrets.lookup
      (SanitizeKubeResourceName identity, admissionWebhookSecretName)).isSome = true)
    (hA2 : wA.cluster.deployments.contains
      (SanitizeKubeResourceName identity, SanitizeKubeResourceName identity) = false)
    (hA3 : wA.cluster.services.contains
      (SanitizeKubeResourceName identity, validationControllerName) = false)
    (hB1 : wB.cluster.namespaces.contains (SanitizeKubeResourceName identity) = true)
    (hB2 : wB.cluster.csiDrivers.contains (SanitizeKubeResourceName identity) = true)
    (hB3 : wB.cluster.storageClasses.contains (SanitizeKubeResourceName identity) = true)
    (hB4 : wB.cluster.services.contains
      (SanitizeKubeResourceName identity, SanitizeKubeResourceName identity) = true)
    (hB5 : wB.cluster.daemonSets.contains
      (SanitizeKubeResourceName identity, SanitizeKubeResourceName identity) = true)
    (hB6 : wB.cluster.deployments.contains
      (SanitizeKubeResourceName identity, SanitizeKubeResourceName identity) = true)
    (hB7 : wB.cluster.validatingWebhookConfigs.contains validationWebhookConfigName = true)
    (hB8 : (wB.cluster.secrets.lookup
      (SanitizeKubeResourceName identity, admissionWebhookSecretName)).isSome = true)
    (hB9 : wB.cluster.services.contains
      (SanitizeKubeResourceName identity, validationControllerName) = true) :
    (CreateDeployment env identity image false registry org hw wA).result = .ok () ∧
      (CreateNamespace identity false hw wB).result = .error (.api .alreadyExists) ∧
      (CreateCSIDriver { env with offeredStorageVersions := "v1" :: vs } identity false hw
          wB).result = .error (.api .alreadyExists) ∧
      (CreateStorageClass { env with offeredStorageVersions := "v1" :: vs } identity false hw
          wB).result = .error (.api .alreadyExists) ∧
      (CreateService identity false hw wB).result = .error (.api .alreadyExists) ∧
      (CreateDaemonSet env identity image false registry org lbo nsel tol sec app edd hw
          wB).result = .error (.api .alreadyExists) ∧
      (CreateDeployment env identity image false registry org hw wB).result
        = .error (.api .alreadyExists) ∧
      (CreateControllerService gsv identity false wB).result
        = .error (.api .alreadyExists) ∧
      (CreateControllerSecret identity pub priv false wB).result
        = .error (.api .alreadyExists) ∧
      (RegisterDriveValidationRules identity false hw wB).result
        = .error (.api .alreadyExists) := by
  have hgv : GetGroupKindVersions ("v1" :: vs) ["v1", "v1beta1", "v1alpha1"] = .ok "v1" := by
    simp [GetGroupKindVersions, List.find?]
  have hdsname : ∀ t : String,
      (buildDaemonSet identity image registry org lbo nsel tol sec app edd t).metadata.name
        = SanitizeKubeResourceName identity := fun t => rfl
  have hdepname : ∀ t : String,
      (buildDeployment identity image registry org t).metadata.name
        = SanitizeKubeResourceName identity := fun t => rfl
  have hwhname : ∀ w' : World,
      (getDriveValidatingWebhookConfig w' identity).metadata.name
        = validationWebhookConfigName := fun w' => rfl
  have hA2m : (SanitizeKubeResourceName identity, SanitizeKubeResourceName identity)
      ∉ wA.cluster.deployments := by simpa using hA2
  have hA3m : (SanitizeKubeResourceName identity, validationControllerName)
      ∉ wA.cluster.services := by simpa using hA3
  have hB1m : SanitizeKubeResourceName identity ∈ wB.cluster.namespaces := by simpa using hB1
  have hB2m : SanitizeKubeResourceName identity ∈ wB.cluster.csiDrivers := by simpa using hB2
  have hB3m : SanitizeKubeResourceName identity ∈ wB.cluster.storageClasses := by
    simpa using hB3
  have hB4m : (SanitizeKubeResourceName identity, SanitizeKubeResourceName identity)
      ∈ wB.cluster.services := by simpa using hB4
  have hB5m : (SanitizeKubeResourceName identity, SanitizeKubeResourceName identity)
      ∈ wB.cluster.daemonSets := by simpa using hB5
  have hB6m : (SanitizeKubeResourceName identity, SanitizeKubeResourceName identity)
      ∈ wB.cluster.deployments := by simpa using hB6
  have hB7m : validationWebhookConfigName ∈ wB.cluster.validatingWebhookConfigs := by
    simpa using hB7
  have hB9m : (SanitizeKubeResourceName identity, validationControllerName)
      ∈ wB.cluster.services := by simpa using hB9
  refine ⟨?_, ?_, ?_, ?_, ?_, ?_, ?_, ?_, ?_, ?_⟩
  · simp [CreateDeployment, hc, CreateControllerSecret, CreateControllerService,
      createSecretData, createKeyed, hA1, hA2m, hA3m, Err.isAlreadyExists, hdepname]
  · simp [CreateNamespace, createNamed, objMeta, hB1m]
  · simp [CreateCSIDriver, hgv, buildCSIDriverV1, createNamed, objMeta, hB2m]
  · simp [CreateStorageClass, hgv, buildStorageClass, createNamed, objMeta, hB3m]
  · simp [CreateService, createKeyed, objMeta, hB4m]
  · simp [CreateDaemonSet, createKeyed, hdsname, hB5m]
  · simp [CreateDeployment, hc, CreateControllerSecret, createSecretData, createKeyed,
      hdepname, hB6m, hB8, Err.isAlreadyExists]
  · simp [CreateControllerService, createKeyed, hB9m]
  · simp [CreateControllerSecret, createSecretData, hB8]
  · simp [RegisterDriveValidationRules, createNamed, hwhname, hB7m]

/-- A world where only the admission webhook secret already exists. -/
def wSecretOnly : World :=
  { world0 with
      cluster := { emptyCluster with
        secrets := [(("direct-csi", admissionWebhookSecretName), [])] } }

/-- A world where every installer-managed resource already exists. -/
def wAllExist : World :=
  { world0 with
      cluster :=
        { namespaces := ["direct-csi"]
          csiDrivers := ["direct-csi"]
          storageClasses := ["direct-csi"]
          services := [("direct-csi", "direct-csi"), ("direct-csi", validationControllerName)]
          daemonSets := [("direct-csi", "direct-csi")]
          deployments := [("direct-csi", "direct-csi")]
          validatingWebhookConfigs := [validationWebhookConfigName]
          secrets := [(("direct-csi", admissionWebhookSecretName), [])]
          brokenSecrets := [] } }

/-- C7 witness: the concrete tolerance and surfacing scenarios. -/
theorem C7_already_exists_tolerated_only_for_controller_secret_witness :
    (CreateDeployment envV1 "direct-csi" "img" false "quay.io" "minio" true
        wSecretOnly).result = .ok () ∧
      (CreateNamespace "direct-csi" false true wAllExist).result
        = .error (.api .alreadyExists) ∧
      (CreateCSIDriver { envV1 with offeredStorageVersions := "v1" :: [] } "direct-csi"
          false true wAllExist).result = .error (.api .alreadyExists) ∧
      (CreateStorageClass { envV1 with offeredStorageVersions := "v1" :: [] } "direct-csi"
          false true wAllExist).result = .error (.api .alreadyExists) ∧
      (CreateService "direct-csi" false true wAllExist).result
        = .error (.api .alreadyExists) ∧
      (CreateDaemonSet envV1 "direct-csi" "img" false "quay.io" "minio" false [] [] "" ""
          false true wAllExist).result = .error (.api .alreadyExists) ∧
      (CreateDeployment envV1 "direct-csi" "img" false "quay.io" "minio" true
          wAllExist).result = .error (.api .alreadyExists) ∧
      (CreateControllerService "tok" "direct-csi" false wAllExist).result
        = .error (.api .alreadyExists) ∧
      (CreateControllerSecret "direct-csi" [20, 21] [30, 31] false wAllExist).result
        = .error (.api .alreadyExists) ∧
      (RegisterDriveValidationRules "direct-csi" false true wAllExist).result
        = .error (.api .alreadyExists) :=
  C7_already_exists_tolerated_only_for_controller_secret envV1 "direct-csi" "img"
    "quay.io" "minio" "tok" false false true [] [] "" "" [20, 21] [30, 31] [10, 11] []
    wSecretOnly wAllExist rfl (by decide) (by decide) (by decide) (by decide) (by decide)
    (by decide) (by decide) (by decide) (by decide) (by decide) (by decide) (by decide)

/-- C1 amended, witnessed at concrete inputs: a fresh world, the `v1`
environment, and a supplied writer. -/
theorem C1_dry_run_no_create_update_witness :
    apiCallsOf (CreateNamespace "direct-csi" true true world0).events = [] ∧
      apiCallsOf (CreateCSIDriver envV1 "direct-csi" true true world0).events = [] ∧
      apiCallsOf (CreateStorageClass envV1 "direct-csi" true true world0).events = [] ∧
      apiCallsOf (CreateService "direct-csi" true true world0).events = [] ∧
      apiCallsOf (CreateDaemonSet envV1 "direct-csi" "img" true "quay.io" "minio" false [] []
          "" "" false true world0).events = [] ∧
      apiCallsOf (CreateDeployment envV1 "direct-csi" "img" true "quay.io" "minio" true
          world0).events = [] ∧
      apiCallsOf (CreateControllerService "tok" "direct-csi" true world0).events = [] ∧
      apiCallsOf (CreateControllerSecret "direct-csi" [20, 21] [30, 31] true
          world0).events = [] ∧
      apiCallsOf (CreateOrUpdateConversionKeyPairSecret "direct-csi" [20, 21] [30, 31] true
          true world0).events = [] ∧
      apiCallsOf (CreateOrUpdateConversionCACertSecret "direct-csi" [10, 11] true true
          world0).events = [] ∧
      apiCallsOf (RegisterDriveValidationRules "direct-csi" true true world0).events = [] ∧
      (∀ c ∈ apiCallsOf (GetConversionCABundle "direct-csi" true world0).events,
        c.op = .getOp) ∧
      (∀ c ∈ apiCallsOf (CreateConversionWebhookSecrets envV1 "direct-csi" true true
          world0).events, c.op = .getOp) ∧
      (writtenObjsOf (CreateNamespace "direct-csi" true true world0).events).length = 1 ∧
      (writtenObjsOf (CreateService "direct-csi" true true world0).events).length = 1 ∧
      (writtenObjsOf (CreateDaemonSet envV1 "direct-csi" "img" true "quay.io" "minio" false
          [] [] "" "" false true world0).events).length = 1 ∧
      (writtenObjsOf (CreateOrUpdateConversionKeyPairSecret "direct-csi" [20, 21] [30, 31]
          true true world0).events).length = 1 ∧
      (writtenObjsOf (CreateOrUpdateConversionCACertSecret "direct-csi" [10, 11] true true
          world0).events).length = 1 ∧
      (writtenObjsOf (RegisterDriveValidationRules "direct-csi" true true
          world0).events).length = 1 ∧
      (writtenObjsOf (CreateCSIDriver { envV1 with offeredStorageVersions := "v1" :: [] }
          "direct-csi" true true world0).events).length = 1 ∧
      (writtenObjsOf (CreateStorageClass { envV1 with offeredStorageVersions := "v1" :: [] }
          "direct-csi" true true world0).events).length = 1 ∧
      (writtenObjsOf (CreateStorageClass
          { envV1 with offeredStorageVersions := "v1beta1" :: [] }
          "direct-csi" true true world0).events).length = 1 ∧
      (writtenObjsOf (CreateDeployment
          { envV1 with getCerts := fun _ => .ok ([10, 11], [20, 21], [30, 31]) }
          "direct-csi" "img" true "quay.io" "minio" true world0).events).length = 1 :=
  C1_dry_run_no_create_update envV1 "direct-csi" "img" "quay.io" "minio" "tok" false false
    [] [] "" "" true world0 [20, 21] [30, 31] [10, 11] []
